import Mathlib

/-!
Verification development for the border-property handler and the color model
of a CSS compiler (sources: src/properties/border.rs and src/values/color.rs).

Modelling conventions:

* Rust `f32` components are shallowly embedded as `FP := Option ℚ`, where
  `none` stands for NaN (used by the source to represent the CSS `none`
  keyword).  Arithmetic on `FP` is NaN-propagating, and equality follows
  Rust `f32` semantics (`NaN == NaN` is false).  Exact `f32` rounding is not
  modelled; the properties checked here are structural (which declarations
  are emitted, in which order, which components are replaced) and do not
  depend on rounding.
* The numeric color-space conversion routines (`to_rgb`, `to_p3`, `to_lab`,
  and the matrix/transfer-function pipeline behind them) are floating-point
  computations whose numeric output no claim below depends on.  They are
  passed as an explicit `Conversions` parameter rather than re-implemented.
* The browser feature-compatibility database (`Feature::is_compatible`,
  `Feature::is_partially_compatible`) is an external collaborator of the two
  source files; a `Targets` value records the answers of the queries the
  sources make.
-/

set_option autoImplicit false

namespace ParcelCss

/-- Shallow embedding of an `f32` component: `none` models NaN (the CSS
`none` keyword), `some q` a finite value. -/
abbrev FP := Option ℚ

/-- Rust `f32` equality: NaN compares unequal to everything, NaN included. -/
def feq : FP → FP → Bool
  | some a, some b => a == b
  | _, _ => false

/-- NaN-propagating addition. -/
def fadd : FP → FP → FP
  | some a, some b => some (a + b)
  | _, _ => none

/-- NaN-propagating subtraction. -/
def fsub : FP → FP → FP
  | some a, some b => some (a - b)
  | _, _ => none

/-- NaN-propagating multiplication. -/
def fmul : FP → FP → FP
  | some a, some b => some (a * b)
  | _, _ => none

/-- NaN-propagating division.  Division by zero produces a non-finite `f32`
value in the source; it is represented by `none` here and is avoided by every
property below. -/
def fdiv : FP → FP → FP
  | some a, some b => if b = 0 then none else some (a / b)
  | _, _ => none

/-- Comparison `x < q` against a finite constant; false when `x` is NaN,
matching Rust `f32` comparisons. -/
def fltc (x : FP) (q : ℚ) : Bool :=
  match x with
  | some v => decide (v < q)
  | none => false

/-- Comparison `q < x` against a finite constant; false when `x` is NaN. -/
def fgtc (x : FP) (q : ℚ) : Bool :=
  match x with
  | some v => decide (q < v)
  | none => false

/-- Comparison of two embedded `f32` values; false when either is NaN. -/
def fltf : FP → FP → Bool
  | some a, some b => decide (a < b)
  | _, _ => false

/-- Absolute-value comparison `x.abs() < q`; false when `x` is NaN. -/
def fabsLt (x : FP) (q : ℚ) : Bool :=
  match x with
  | some v => decide (|v| < q)
  | none => false

/-- Truncation toward zero, as performed by Rust's `%` on floats. -/
def ratTrunc (q : ℚ) : ℤ :=
  if 0 ≤ q then ⌊q⌋ else ⌈q⌉

/-- Rust floating-point remainder `a % b` (truncated division, sign of `a`). -/
def rustRem (a b : ℚ) : ℚ :=
  a - b * (ratTrunc (a / b) : ℚ)

/-- NaN-propagating remainder by a finite constant. -/
def frem (x : FP) (q : ℚ) : FP :=
  x.map (fun v => rustRem v q)

/-- Rust `clamp` on rationals. -/
def ratClamp (v lo hi : ℚ) : ℚ :=
  max lo (min v hi)

/-- Rust `f32::round` (round half away from zero). -/
def ratRound (q : ℚ) : ℚ :=
  if 0 ≤ q then (⌊q + 1/2⌋ : ℤ) else (⌈q - 1/2⌉ : ℤ)

/-- The constant `f32::EPSILON` = 2⁻²³. -/
def f32Epsilon : ℚ := 1 / 2 ^ 23

/-!
## Color data model (src/values/color.rs)
-/

/-- An 8-bit RGBA color (the `cssparser::RGBA` struct): four integer
components in `[0, 255]`. -/
structure RGBA where
  red : Nat
  green : Nat
  blue : Nat
  alpha : Nat
deriving DecidableEq

/-- Component record shared by the per-space structs generated by the
`define_colorspace!` macro (src/values/color.rs lines 876-925).  The macro
stamps out one struct per color space (`SRGB`, `P3`, `LAB`, ... ) differing
only in field names; a single record with positional fields `a`, `b`, `c`
and `alpha` embodies all of them. -/
structure SpaceColor where
  a : FP
  b : FP
  c : FP
  alpha : FP
deriving DecidableEq

/-- Method `resolve_missing` generated by `define_colorspace!`
(src/values/color.rs lines 903-911): each NaN component, the alpha component
included, is replaced by `0.0`. -/
def SpaceColor.resolve_missing (x : SpaceColor) : SpaceColor where
  a := if x.a.isNone then some 0 else x.a
  b := if x.b.isNone then some 0 else x.b
  c := if x.c.isNone then some 0 else x.c
  alpha := if x.alpha.isNone then some 0 else x.alpha

/-- The `LCH` color-space struct (one of the `define_colorspace!` instances),
with its own field names, kept separate because the interpolation pipeline
below manipulates its components by name. -/
structure LCH where
  l : FP
  c : FP
  h : FP
  alpha : FP
deriving DecidableEq

/-- Sum of the four Lab-family payloads (`enum LABColor`). -/
inductive LABColor where
  | LAB : SpaceColor → LABColor
  | LCH : LCH → LABColor
  | OKLAB : SpaceColor → LABColor
  | OKLCH : SpaceColor → LABColor
deriving DecidableEq

/-- Sum of the eight predefined color-space payloads (`enum PredefinedColor`). -/
inductive PredefinedColor where
  | SRGB : SpaceColor → PredefinedColor
  | SRGBLinear : SpaceColor → PredefinedColor
  | DisplayP3 : SpaceColor → PredefinedColor
  | A98 : SpaceColor → PredefinedColor
  | ProPhoto : SpaceColor → PredefinedColor
  | Rec2020 : SpaceColor → PredefinedColor
  | XYZd50 : SpaceColor → PredefinedColor
  | XYZd65 : SpaceColor → PredefinedColor
deriving DecidableEq

/-- Floating-point RGB/HSL/HWB payloads (`enum FloatColor`). -/
inductive FloatColor where
  | RGB : SpaceColor → FloatColor
  | HSL : SpaceColor → FloatColor
  | HWB : SpaceColor → FloatColor
deriving DecidableEq

/-- The CSS `<color>` value (`enum CssColor`); the `Box`es of the source are
transparent here. -/
inductive CssColor where
  | CurrentColor : CssColor
  | RGBA : RGBA → CssColor
  | LAB : LABColor → CssColor
  | Predefined : PredefinedColor → CssColor
  | Float : FloatColor → CssColor
deriving DecidableEq

/-!
## Color fallback planner (src/values/color.rs lines 117-321)

`ColorFallbackKind` is a `bitflags` bitset over a `u8`; it is embedded as the
underlying `Nat` bit pattern.
-/

namespace ColorFallbackKind

/-- Bit for an RGB fallback. -/
def RGB : Nat := 1

/-- Bit for a P3 fallback. -/
def P3 : Nat := 2

/-- Bit for a LAB fallback. -/
def LAB : Nat := 4

/-- Bit for an OKLAB fallback. -/
def OKLAB : Nat := 8

/-- The empty bitset. -/
def empty : Nat := 0

/-- Bitflags `contains`: `(self & other) == other`. -/
def contains (s k : Nat) : Bool := s &&& k == k

/-- Bitflags `remove` / set difference: `self & !other` on the `u8` bits. -/
def remove (s k : Nat) : Nat := s &&& (255 ^^^ k)

/-- Method `lowest` (source lines 167-170): `self & self.bits().wrapping_neg()`
on the `u8` bit pattern isolates the least significant set bit. -/
def lowest (s : Nat) : Nat := s &&& ((256 - s % 256) % 256)

/-- Method `highest` (source lines 172-180): `1 << (7 - leading_zeros)` on
the `u8` bit pattern isolates the most significant set bit; empty input
gives the empty set.  Spelled as an explicit chain over the eight bit
positions of a `u8`. -/
def highest (s : Nat) : Nat :=
  if s = 0 then 0
  else if 128 ≤ s then 128
  else if 64 ≤ s then 64
  else if 32 ≤ s then 32
  else if 16 ≤ s then 16
  else if 8 ≤ s then 8
  else if 4 ≤ s then 4
  else if 2 ≤ s then 2
  else 1

/-- Method `and_below` (source lines 182-188): the set together with all
lower bits, via `self | (bits - 1)`. -/
def and_below (s : Nat) : Nat :=
  if s = 0 then 0 else s ||| (s - 1)

end ColorFallbackKind

/-- Answers of the feature-compatibility queries that src/values/color.rs
makes against the browser-target database (an external collaborator; only
the queried bits are recorded). -/
structure Targets where
  colorFunction : Bool
  oklabColors : Bool
  labColors : Bool
  labColorsPartial : Bool
  p3Colors : Bool
  p3ColorsPartial : Bool
deriving DecidableEq

/-- The three removal phases of `get_possible_fallbacks`
(src/values/color.rs lines 249-274), applied to the initial and-below set. -/
def fallbackStep (fb0 : Nat) (t : Targets) : Nat :=
  let fb1 :=
    if ColorFallbackKind.contains fb0 ColorFallbackKind.OKLAB then
      if t.oklabColors then
        ColorFallbackKind.remove fb0 (ColorFallbackKind.and_below ColorFallbackKind.LAB)
      else fb0
    else fb0
  let fb2 :=
    if ColorFallbackKind.contains fb1 ColorFallbackKind.LAB then
      if t.labColors then
        ColorFallbackKind.remove fb1 (ColorFallbackKind.and_below ColorFallbackKind.P3)
      else if t.labColorsPartial then
        ColorFallbackKind.remove fb1 ColorFallbackKind.P3
      else fb1
    else fb1
  let fb3 :=
    if ColorFallbackKind.contains fb2 ColorFallbackKind.P3 then
      if t.p3Colors then
        ColorFallbackKind.remove fb2 ColorFallbackKind.RGB
      else if ColorFallbackKind.highest fb2 != ColorFallbackKind.P3 && !t.p3ColorsPartial then
        ColorFallbackKind.remove fb2 ColorFallbackKind.P3
      else fb2
    else fb2
  fb3

/-- Method `CssColor::get_possible_fallbacks` (src/values/color.rs lines
227-277): the and-below set of the authored space, minus the kinds the
targets make unnecessary.  `CurrentColor`, `RGBA` and `Float` colors return
the empty set before the removal phases run. -/
def CssColor.get_possible_fallbacks (c : CssColor) (t : Targets) : Nat :=
  match c with
  | .CurrentColor => ColorFallbackKind.empty
  | .RGBA _ => ColorFallbackKind.empty
  | .Float _ => ColorFallbackKind.empty
  | .LAB l =>
    match l with
    | .LAB _ | .LCH _ =>
      fallbackStep (ColorFallbackKind.and_below ColorFallbackKind.LAB) t
    | .OKLAB _ | .OKLCH _ =>
      fallbackStep (ColorFallbackKind.and_below ColorFallbackKind.OKLAB) t
  | .Predefined p =>
    match p with
    | .DisplayP3 _ =>
      fallbackStep (ColorFallbackKind.and_below ColorFallbackKind.P3) t
    | _ =>
      if t.colorFunction then ColorFallbackKind.empty
      else fallbackStep (ColorFallbackKind.and_below ColorFallbackKind.LAB) t

/-- Method `CssColor::get_necessary_fallbacks` (src/values/color.rs lines
280-285): the possible set minus its highest kind, which will replace the
original declaration. -/
def CssColor.get_necessary_fallbacks (c : CssColor) (t : Targets) : Nat :=
  let fallbacks := c.get_possible_fallbacks t
  ColorFallbackKind.remove fallbacks (ColorFallbackKind.highest fallbacks)

/-- The numeric color-space conversion routines of src/values/color.rs
(`to_rgb`, `to_p3`, `to_lab`), passed as parameters: they are `f32` matrix
and transfer-function pipelines whose numeric output no claim below depends
on. -/
structure Conversions where
  toRgb : CssColor → CssColor
  toP3 : CssColor → CssColor
  toLab : CssColor → CssColor

/-- Method `CssColor::get_fallback` (src/values/color.rs lines 288-299):
RGBA colors are returned unchanged; otherwise the kind selects the
conversion.  Kinds other than RGB/P3/LAB are `unreachable!()` in the source;
the color is returned unchanged there. -/
def CssColor.get_fallback (cv : Conversions) (c : CssColor) (kind : Nat) : CssColor :=
  match c with
  | .RGBA r => .RGBA r
  | _ =>
    if kind = ColorFallbackKind.RGB then cv.toRgb c
    else if kind = ColorFallbackKind.P3 then cv.toP3 c
    else if kind = ColorFallbackKind.LAB then cv.toLab c
    else c

/-- Method `FallbackValues::get_fallbacks` for `CssColor` (src/values/color.rs
lines 302-321).  The source mutates the receiver; the embedding returns the
fallback vector together with the updated receiver. -/
def CssColor.get_fallbacks (cv : Conversions) (c : CssColor) (targets : Targets) :
    List CssColor × CssColor :=
  let fallbacks := c.get_necessary_fallbacks targets
  let res : List CssColor := []
  let res :=
    if ColorFallbackKind.contains fallbacks ColorFallbackKind.RGB then res ++ [cv.toRgb c]
    else res
  let res :=
    if ColorFallbackKind.contains fallbacks ColorFallbackKind.P3 then res ++ [cv.toP3 c]
    else res
  let c' :=
    if ColorFallbackKind.contains fallbacks ColorFallbackKind.LAB then cv.toLab c
    else c
  (res, c')

/-!
## The rgb() component parser (src/values/color.rs lines 717-753)
-/

/-- Result of `ComponentParser::parse_number_or_percentage` for one `rgb()`
component: a number (NaN for the `none` keyword) or a percentage. -/
inductive NumberOrPercentage where
  | Number : FP → NumberOrPercentage
  | Percentage : ℚ → NumberOrPercentage
deriving DecidableEq

/-- The component-kind state of `parse_rgb_components`. -/
inductive RgbKind where
  | Unknown
  | Number
  | Percentage
deriving DecidableEq

/-- The structured parse error relevant here (`ParserError::InvalidValue`). -/
inductive ParserError where
  | InvalidValue
deriving DecidableEq

/-- The inner `parse_component` closure of `parse_rgb_components`
(src/values/color.rs lines 731-747). -/
def parse_component (tok : NumberOrPercentage) (kind : RgbKind) :
    Except ParserError (FP × RgbKind) :=
  match tok with
  | .Number none => .ok (none, kind)
  | .Number (some v) =>
    if kind ≠ RgbKind.Percentage then
      .ok (some (ratClamp (ratRound v) 0 255 / 255), RgbKind.Number)
    else .error .InvalidValue
  | .Percentage v =>
    if kind ≠ RgbKind.Number then
      .ok (some (ratClamp v 0 1), RgbKind.Percentage)
    else .error .InvalidValue

/-- Function `parse_rgb_components` (src/values/color.rs lines 718-753),
applied to the three already-lexed component tokens. -/
def parse_rgb_components (t1 t2 t3 : NumberOrPercentage) :
    Except ParserError (FP × FP × FP) := do
  let (r, kind) ← parse_component t1 RgbKind.Unknown
  let (g, kind) ← parse_component t2 kind
  let (b, _) ← parse_component t3 kind
  return (r, g, b)

/-- An actual (non-`none`) number token. -/
def NumberOrPercentage.isRealNumber : NumberOrPercentage → Bool
  | .Number (some _) => true
  | _ => false

/-- A percentage token. -/
def NumberOrPercentage.isPercentage : NumberOrPercentage → Bool
  | .Percentage _ => true
  | _ => false

/-!
## Border data model (src/properties/border.rs)
-/

/-- Modelled from the spec: the `Length` value type lives in
src/values/length.rs, which is not part of the sources here; only its
equality matters for the border handler, so it is recorded as a rational
number of pixels. -/
structure Length where
  px : ℚ
deriving DecidableEq

/-- A `border-width` value (`enum BorderSideWidth`, source lines 29-44);
the default is `Medium`. -/
inductive BorderSideWidth where
  | Thin
  | Medium
  | Thick
  | Length : Length → BorderSideWidth
deriving DecidableEq

instance : Inhabited BorderSideWidth := ⟨BorderSideWidth.Medium⟩

/-- A `<line-style>` value (`enum LineStyle`, source lines 77-107); the
default is `None`. -/
inductive LineStyle where
  | None
  | Hidden
  | Inset
  | Groove
  | Outset
  | Ridge
  | Dotted
  | Dashed
  | Solid
  | Double
deriving DecidableEq

instance : Inhabited LineStyle := ⟨LineStyle.None⟩

/-- The `currentColor` keyword (`CssColor::current_color`). -/
def CssColor.current_color : CssColor := CssColor.CurrentColor

instance : Inhabited CssColor := ⟨CssColor.current_color⟩

/-- The `border` shorthand value (`struct GenericBorder<S, P>`, source lines
109-119).  Every positional alias (`BorderTop`, ..., `Border`) instantiates
it at `S = LineStyle`; the `const P` tag only disambiguates trait instances
and carries no data, so it is dropped. -/
structure Border where
  width : BorderSideWidth
  style : LineStyle
  color : CssColor
deriving DecidableEq

/-- A four-sided rectangle of values (`Rect<T>` from src/values/rect.rs,
constructed field-by-field in the border handler). -/
structure Rect (α : Type) where
  top : α
  right : α
  bottom : α
  left : α
deriving DecidableEq

/-- A two-ended axis value (`Size2D`-style structs produced by the
`size_shorthand!` macro: `BorderBlockColor`, `BorderInlineWidth`, ...). -/
structure SizePair (α : Type) where
  start : α
  end_ : α
deriving DecidableEq

/-- The border-family fragment of `enum Property` that the handler consumes
and emits. -/
inductive Property where
  | BorderTopColor : CssColor → Property
  | BorderBottomColor : CssColor → Property
  | BorderLeftColor : CssColor → Property
  | BorderRightColor : CssColor → Property
  | BorderBlockStartColor : CssColor → Property
  | BorderBlockEndColor : CssColor → Property
  | BorderInlineStartColor : CssColor → Property
  | BorderInlineEndColor : CssColor → Property
  | BorderBlockColor : SizePair CssColor → Property
  | BorderInlineColor : SizePair CssColor → Property
  | BorderTopWidth : BorderSideWidth → Property
  | BorderBottomWidth : BorderSideWidth → Property
  | BorderLeftWidth : BorderSideWidth → Property
  | BorderRightWidth : BorderSideWidth → Property
  | BorderBlockStartWidth : BorderSideWidth → Property
  | BorderBlockEndWidth : BorderSideWidth → Property
  | BorderInlineStartWidth : BorderSideWidth → Property
  | BorderInlineEndWidth : BorderSideWidth → Property
  | BorderBlockWidth : SizePair BorderSideWidth → Property
  | BorderInlineWidth : SizePair BorderSideWidth → Property
  | BorderTopStyle : LineStyle → Property
  | BorderBottomStyle : LineStyle → Property
  | BorderLeftStyle : LineStyle → Property
  | BorderRightStyle : LineStyle → Property
  | BorderBlockStartStyle : LineStyle → Property
  | BorderBlockEndStyle : LineStyle → Property
  | BorderInlineStartStyle : LineStyle → Property
  | BorderInlineEndStyle : LineStyle → Property
  | BorderBlockStyle : SizePair LineStyle → Property
  | BorderInlineStyle : SizePair LineStyle → Property
  | BorderTop : Border → Property
  | BorderBottom : Border → Property
  | BorderLeft : Border → Property
  | BorderRight : Border → Property
  | BorderBlockStart : Border → Property
  | BorderBlockEnd : Border → Property
  | BorderInlineStart : Border → Property
  | BorderInlineEnd : Border → Property
  | BorderBlock : Border → Property
  | BorderInline : Border → Property
  | BorderWidth : Rect BorderSideWidth → Property
  | BorderStyle : Rect LineStyle → Property
  | BorderColor : Rect CssColor → Property
  | Border : Border → Property
deriving DecidableEq

/-!
### Rust `PartialEq` on color-carrying values

Derived `PartialEq` on the source types compares `f32` components with
`NaN != NaN`; the `beq` functions below reproduce that, while `Option`
wrappers compare `None == None` as true.
-/

/-- Rust `==` on a `SpaceColor` payload. -/
def SpaceColor.beq (x y : SpaceColor) : Bool :=
  feq x.a y.a && feq x.b y.b && feq x.c y.c && feq x.alpha y.alpha

/-- Rust `==` on an `LCH` payload. -/
def LCH.beq (x y : LCH) : Bool :=
  feq x.l y.l && feq x.c y.c && feq x.h y.h && feq x.alpha y.alpha

/-- Rust `==` on `LABColor`. -/
def LABColor.beq : LABColor → LABColor → Bool
  | .LAB a, .LAB b => a.beq b
  | .LCH a, .LCH b => a.beq b
  | .OKLAB a, .OKLAB b => a.beq b
  | .OKLCH a, .OKLCH b => a.beq b
  | _, _ => false

/-- Rust `==` on `PredefinedColor`. -/
def PredefinedColor.beq : PredefinedColor → PredefinedColor → Bool
  | .SRGB a, .SRGB b => a.beq b
  | .SRGBLinear a, .SRGBLinear b => a.beq b
  | .DisplayP3 a, .DisplayP3 b => a.beq b
  | .A98 a, .A98 b => a.beq b
  | .ProPhoto a, .ProPhoto b => a.beq b
  | .Rec2020 a, .Rec2020 b => a.beq b
  | .XYZd50 a, .XYZd50 b => a.beq b
  | .XYZd65 a, .XYZd65 b => a.beq b
  | _, _ => false

/-- Rust `==` on `FloatColor`. -/
def FloatColor.beq : FloatColor → FloatColor → Bool
  | .RGB a, .RGB b => a.beq b
  | .HSL a, .HSL b => a.beq b
  | .HWB a, .HWB b => a.beq b
  | _, _ => false

/-- Rust `==` on `CssColor`. -/
def CssColor.beq : CssColor → CssColor → Bool
  | .CurrentColor, .CurrentColor => true
  | .RGBA a, .RGBA b => a == b
  | .LAB a, .LAB b => a.beq b
  | .Predefined a, .Predefined b => a.beq b
  | .Float a, .Float b => a.beq b
  | _, _ => false

/-- Rust `==` on `Option` values with a given payload equality. -/
def beqOpt {α : Type} (f : α → α → Bool) : Option α → Option α → Bool
  | none, none => true
  | some a, some b => f a b
  | _, _ => false

/-- Rust `==` on optional widths (no floats inside, so decidable equality). -/
def beqWidth : Option BorderSideWidth → Option BorderSideWidth → Bool :=
  beqOpt (fun a b => a == b)

/-- Rust `==` on optional line styles. -/
def beqStyle : Option LineStyle → Option LineStyle → Bool :=
  beqOpt (fun a b => a == b)

/-- Rust `==` on optional colors. -/
def beqColor : Option CssColor → Option CssColor → Bool :=
  beqOpt CssColor.beq

/-!
### Border side state (src/properties/border.rs lines 463-494)
-/

/-- The per-side pending state (`struct BorderShorthand`): the three
sub-properties, each independently present or absent. -/
structure BorderShorthand where
  width : Option BorderSideWidth
  style : Option LineStyle
  color : Option CssColor
deriving DecidableEq

instance : Inhabited BorderShorthand := ⟨⟨none, none, none⟩⟩

/-- Method `set_border` (source lines 471-475): writes all three fields. -/
def BorderShorthand.set_border (_s : BorderShorthand) (b : Border) : BorderShorthand where
  width := some b.width
  style := some b.style
  color := some b.color

/-- Method `is_valid` (source lines 477-479): true iff all three fields are
present. -/
def BorderShorthand.is_valid (s : BorderShorthand) : Bool :=
  s.width.isSome && s.style.isSome && s.color.isSome

/-- Method `reset` (source lines 481-485): clears all three fields. -/
def BorderShorthand.reset (_s : BorderShorthand) : BorderShorthand :=
  ⟨none, none, none⟩

/-- Method `to_border` (source lines 487-493) with the `unwrap`s modelled as
`Option`: the result is `some` exactly when no unwrap panics. -/
def BorderShorthand.to_border_opt (s : BorderShorthand) : Option Border := do
  let w ← s.width
  let st ← s.style
  let c ← s.color
  pure ⟨w, st, c⟩

/-- Method `to_border` as the total function used by the flush algorithm.
Every call site in the source is guarded by `is_valid`, so the default
values substituted for absent fields are never observed. -/
def BorderShorthand.to_border (s : BorderShorthand) : Border where
  width := s.width.getD default
  style := s.style.getD default
  color := s.color.getD default

/-- Rust `==` on `BorderShorthand` (derived `PartialEq`, field by field). -/
def BorderShorthand.beq (x y : BorderShorthand) : Bool :=
  beqWidth x.width y.width && beqStyle x.style y.style && beqColor x.color y.color

/-!
### Fallback emission (src/properties/border.rs)
-/

/-- Method `FallbackValues::get_fallbacks` for `GenericBorder` (source lines
205-218): one bordered copy per color fallback; the receiver's color is
mutated in place by the inner call. -/
def Border.get_fallbacks (cv : Conversions) (b : Border) (targets : Targets) :
    List Border × Border :=
  let (colors, color') := b.color.get_fallbacks cv targets
  (colors.map (fun color => { b with color }), { b with color := color' })

/-- The `impl_fallbacks!` macro (source lines 421-461) instantiated at
`BorderColor` (a rectangle of four colors): the union of the per-color
necessary kinds selects which whole-rectangle fallbacks are built. -/
def rectColorGetFallbacks (cv : Conversions) (r : Rect CssColor) (targets : Targets) :
    List (Rect CssColor) × Rect CssColor :=
  let fallbacks :=
    r.top.get_necessary_fallbacks targets |||
    r.right.get_necessary_fallbacks targets |||
    r.bottom.get_necessary_fallbacks targets |||
    r.left.get_necessary_fallbacks targets
  let res : List (Rect CssColor) := []
  let res :=
    if ColorFallbackKind.contains fallbacks ColorFallbackKind.RGB then
      res ++ [⟨r.top.get_fallback cv ColorFallbackKind.RGB,
              r.right.get_fallback cv ColorFallbackKind.RGB,
              r.bottom.get_fallback cv ColorFallbackKind.RGB,
              r.left.get_fallback cv ColorFallbackKind.RGB⟩]
    else res
  let res :=
    if ColorFallbackKind.contains fallbacks ColorFallbackKind.P3 then
      res ++ [⟨r.top.get_fallback cv ColorFallbackKind.P3,
              r.right.get_fallback cv ColorFallbackKind.P3,
              r.bottom.get_fallback cv ColorFallbackKind.P3,
              r.left.get_fallback cv ColorFallbackKind.P3⟩]
    else res
  let r' :=
    if ColorFallbackKind.contains fallbacks ColorFallbackKind.LAB then
      (⟨r.top.get_fallback cv ColorFallbackKind.LAB,
        r.right.get_fallback cv ColorFallbackKind.LAB,
        r.bottom.get_fallback cv ColorFallbackKind.LAB,
        r.left.get_fallback cv ColorFallbackKind.LAB⟩ : Rect CssColor)
    else r
  (res, r')

/-- The `impl_fallbacks!` macro instantiated at the two-color axis
shorthands (`BorderBlockColor`, `BorderInlineColor`). -/
def pairColorGetFallbacks (cv : Conversions) (p : SizePair CssColor) (targets : Targets) :
    List (SizePair CssColor) × SizePair CssColor :=
  let fallbacks :=
    p.start.get_necessary_fallbacks targets ||| p.end_.get_necessary_fallbacks targets
  let res : List (SizePair CssColor) := []
  let res :=
    if ColorFallbackKind.contains fallbacks ColorFallbackKind.RGB then
      res ++ [⟨p.start.get_fallback cv ColorFallbackKind.RGB,
              p.end_.get_fallback cv ColorFallbackKind.RGB⟩]
    else res
  let res :=
    if ColorFallbackKind.contains fallbacks ColorFallbackKind.P3 then
      res ++ [⟨p.start.get_fallback cv ColorFallbackKind.P3,
              p.end_.get_fallback cv ColorFallbackKind.P3⟩]
    else res
  let p' :=
    if ColorFallbackKind.contains fallbacks ColorFallbackKind.LAB then
      (⟨p.start.get_fallback cv ColorFallbackKind.LAB,
        p.end_.get_fallback cv ColorFallbackKind.LAB⟩ : SizePair CssColor)
    else p
  (res, p')

/-- The accumulated flush output: the declaration list (`dest.push`) and the
LTR/RTL pairs registered through `context.add_logical_rule`. -/
abbrev Emit := List Property × List (Property × Property)

/-- Push one declaration onto the output list. -/
def Emit.push (e : Emit) (p : Property) : Emit := (e.1 ++ [p], e.2)

/-- Register one logical rule pair (`context.add_logical_rule`). -/
def Emit.addRule (e : Emit) (ltr rtl : Property) : Emit := (e.1, e.2 ++ [(ltr, rtl)])

/-- Concatenation of two emission records. -/
def Emit.append (e1 e2 : Emit) : Emit := (e1.1 ++ e2.1, e1.2 ++ e2.2)

/-- The `fallbacks!` macro of `BorderHandler::flush` (src/properties/border.rs
lines 717-728): with browser targets set, every fallback produced by the
value's `get_fallbacks` is pushed before the (possibly mutated) primary
declaration; without targets only the primary declaration is pushed. -/
def emitFallbacks {α : Type} (targets : Option Targets) (mk : α → Property)
    (getFb : α → Targets → List α × α) (val : α) (e : Emit) : Emit :=
  match targets with
  | none => e.push (mk val)
  | some t =>
    let (fallbacks, val') := getFb val t
    let e := fallbacks.foldl (fun acc fb => acc.push (mk fb)) e
    e.push (mk val')

/-- The feature queries made by `BorderHandler::flush` against the context
(`Feature::LogicalBorders`, `Feature::LogicalBorderShorthand`); the
compatibility database itself is an external collaborator. -/
structure SupportsCtx where
  logicalBorders : Bool
  logicalBorderShorthand : Bool
deriving DecidableEq

/-- Everything the expanded `prop!` macro closes over during a flush. -/
structure FlushEnv where
  cv : Conversions
  targets : Option Targets
  logical_supported : Bool
  logical_shorthand_supported : Bool

/-!
### The `prop!` emitters (src/properties/border.rs lines 730-900)

One function per `prop!` arm.  Physical side properties always emit
directly (colors and full sides through `fallbacks!`); logical side
properties branch on `Feature::LogicalBorders` support and fall back either
to the corresponding physical property (block axis) or to an
`add_logical_rule` registration (inline axis).
-/

/-- Arm `BorderTop` (`fallbacks!`). -/
def eBorderTop (env : FlushEnv) (v : Border) (e : Emit) : Emit :=
  emitFallbacks env.targets Property.BorderTop (Border.get_fallbacks env.cv) v e

/-- Arm `BorderBottom` (`fallbacks!`). -/
def eBorderBottom (env : FlushEnv) (v : Border) (e : Emit) : Emit :=
  emitFallbacks env.targets Property.BorderBottom (Border.get_fallbacks env.cv) v e

/-- Arm `BorderLeft` (`fallbacks!`). -/
def eBorderLeft (env : FlushEnv) (v : Border) (e : Emit) : Emit :=
  emitFallbacks env.targets Property.BorderLeft (Border.get_fallbacks env.cv) v e

/-- Arm `BorderRight` (`fallbacks!`). -/
def eBorderRight (env : FlushEnv) (v : Border) (e : Emit) : Emit :=
  emitFallbacks env.targets Property.BorderRight (Border.get_fallbacks env.cv) v e

/-- Catch-all arm for `BorderTopWidth` (plain push). -/
def eBorderTopWidth (_env : FlushEnv) (v : BorderSideWidth) (e : Emit) : Emit :=
  e.push (Property.BorderTopWidth v)

/-- Catch-all arm for `BorderBottomWidth` (plain push). -/
def eBorderBottomWidth (_env : FlushEnv) (v : BorderSideWidth) (e : Emit) : Emit :=
  e.push (Property.BorderBottomWidth v)

/-- Catch-all arm for `BorderLeftWidth` (plain push). -/
def eBorderLeftWidth (_env : FlushEnv) (v : BorderSideWidth) (e : Emit) : Emit :=
  e.push (Property.BorderLeftWidth v)

/-- Catch-all arm for `BorderRightWidth` (plain push). -/
def eBorderRightWidth (_env : FlushEnv) (v : BorderSideWidth) (e : Emit) : Emit :=
  e.push (Property.BorderRightWidth v)

/-- Catch-all arm for `BorderTopStyle` (plain push). -/
def eBorderTopStyle (_env : FlushEnv) (v : LineStyle) (e : Emit) : Emit :=
  e.push (Property.BorderTopStyle v)

/-- Catch-all arm for `BorderBottomStyle` (plain push). -/
def eBorderBottomStyle (_env : FlushEnv) (v : LineStyle) (e : Emit) : Emit :=
  e.push (Property.BorderBottomStyle v)

/-- Catch-all arm for `BorderLeftStyle` (plain push). -/
def eBorderLeftStyle (_env : FlushEnv) (v : LineStyle) (e : Emit) : Emit :=
  e.push (Property.BorderLeftStyle v)

/-- Catch-all arm for `BorderRightStyle` (plain push). -/
def eBorderRightStyle (_env : FlushEnv) (v : LineStyle) (e : Emit) : Emit :=
  e.push (Property.BorderRightStyle v)

/-- Arm `BorderTopColor` (`fallbacks!`). -/
def eBorderTopColor (env : FlushEnv) (v : CssColor) (e : Emit) : Emit :=
  emitFallbacks env.targets Property.BorderTopColor (CssColor.get_fallbacks env.cv) v e

/-- Arm `BorderBottomColor` (`fallbacks!`). -/
def eBorderBottomColor (env : FlushEnv) (v : CssColor) (e : Emit) : Emit :=
  emitFallbacks env.targets Property.BorderBottomColor (CssColor.get_fallbacks env.cv) v e

/-- Arm `BorderLeftColor` (`fallbacks!`). -/
def eBorderLeftColor (env : FlushEnv) (v : CssColor) (e : Emit) : Emit :=
  emitFallbacks env.targets Property.BorderLeftColor (CssColor.get_fallbacks env.cv) v e

/-- Arm `BorderRightColor` (`fallbacks!`). -/
def eBorderRightColor (env : FlushEnv) (v : CssColor) (e : Emit) : Emit :=
  emitFallbacks env.targets Property.BorderRightColor (CssColor.get_fallbacks env.cv) v e

/-- Arm `Border` (`fallbacks!`). -/
def eBorder (env : FlushEnv) (v : Border) (e : Emit) : Emit :=
  emitFallbacks env.targets Property.Border (Border.get_fallbacks env.cv) v e

/-- Catch-all arm for `BorderWidth` (plain push). -/
def eBorderWidthRect (_env : FlushEnv) (v : Rect BorderSideWidth) (e : Emit) : Emit :=
  e.push (Property.BorderWidth v)

/-- Catch-all arm for `BorderStyle` (plain push). -/
def eBorderStyleRect (_env : FlushEnv) (v : Rect LineStyle) (e : Emit) : Emit :=
  e.push (Property.BorderStyle v)

/-- Arm `BorderColor` (`fallbacks!` over the rectangle of colors). -/
def eBorderColorRect (env : FlushEnv) (v : Rect CssColor) (e : Emit) : Emit :=
  emitFallbacks env.targets Property.BorderColor (rectColorGetFallbacks env.cv) v e

/-- Arm `BorderBlock` (`fallbacks!`). -/
def eBorderBlock (env : FlushEnv) (v : Border) (e : Emit) : Emit :=
  emitFallbacks env.targets Property.BorderBlock (Border.get_fallbacks env.cv) v e

/-- Arm `BorderInline` (`fallbacks!`). -/
def eBorderInline (env : FlushEnv) (v : Border) (e : Emit) : Emit :=
  emitFallbacks env.targets Property.BorderInline (Border.get_fallbacks env.cv) v e

/-- Arm `BorderBlockColor` (`fallbacks!` over the axis pair). -/
def eBorderBlockColorPair (env : FlushEnv) (v : SizePair CssColor) (e : Emit) : Emit :=
  emitFallbacks env.targets Property.BorderBlockColor (pairColorGetFallbacks env.cv) v e

/-- Arm `BorderInlineColor` (`fallbacks!` over the axis pair). -/
def eBorderInlineColorPair (env : FlushEnv) (v : SizePair CssColor) (e : Emit) : Emit :=
  emitFallbacks env.targets Property.BorderInlineColor (pairColorGetFallbacks env.cv) v e

/-- Catch-all arm for `BorderBlockWidth` (plain push). -/
def eBorderBlockWidthPair (_env : FlushEnv) (v : SizePair BorderSideWidth) (e : Emit) : Emit :=
  e.push (Property.BorderBlockWidth v)

/-- Catch-all arm for `BorderInlineWidth` (plain push). -/
def eBorderInlineWidthPair (_env : FlushEnv) (v : SizePair BorderSideWidth) (e : Emit) : Emit :=
  e.push (Property.BorderInlineWidth v)

/-- Catch-all arm for `BorderBlockStyle` (plain push). -/
def eBorderBlockStylePair (_env : FlushEnv) (v : SizePair LineStyle) (e : Emit) : Emit :=
  e.push (Property.BorderBlockStyle v)

/-- Catch-all arm for `BorderInlineStyle` (plain push). -/
def eBorderInlineStylePair (_env : FlushEnv) (v : SizePair LineStyle) (e : Emit) : Emit :=
  e.push (Property.BorderInlineStyle v)

/-- Arm `BorderBlockStart`: `fallbacks!` on the logical property when
logical borders are supported, else on `BorderTop`. -/
def eBorderBlockStart (env : FlushEnv) (v : Border) (e : Emit) : Emit :=
  if env.logical_supported then
    emitFallbacks env.targets Property.BorderBlockStart (Border.get_fallbacks env.cv) v e
  else eBorderTop env v e

/-- Arm `BorderBlockStartWidth`: plain push, lowered to `BorderTopWidth`
when logical borders are unsupported. -/
def eBorderBlockStartWidth (env : FlushEnv) (v : BorderSideWidth) (e : Emit) : Emit :=
  if env.logical_supported then e.push (Property.BorderBlockStartWidth v)
  else e.push (Property.BorderTopWidth v)

/-- Arm `BorderBlockStartStyle`. -/
def eBorderBlockStartStyle (env : FlushEnv) (v : LineStyle) (e : Emit) : Emit :=
  if env.logical_supported then e.push (Property.BorderBlockStartStyle v)
  else e.push (Property.BorderTopStyle v)

/-- Arm `BorderBlockStartColor` (`fallbacks!`, lowered to `BorderTopColor`
when logical borders are unsupported). -/
def eBorderBlockStartColor (env : FlushEnv) (v : CssColor) (e : Emit) : Emit :=
  if env.logical_supported then
    emitFallbacks env.targets Property.BorderBlockStartColor (CssColor.get_fallbacks env.cv) v e
  else eBorderTopColor env v e

/-- Arm `BorderBlockEnd`. -/
def eBorderBlockEnd (env : FlushEnv) (v : Border) (e : Emit) : Emit :=
  if env.logical_supported then
    emitFallbacks env.targets Property.BorderBlockEnd (Border.get_fallbacks env.cv) v e
  else eBorderBottom env v e

/-- Arm `BorderBlockEndWidth`. -/
def eBorderBlockEndWidth (env : FlushEnv) (v : BorderSideWidth) (e : Emit) : Emit :=
  if env.logical_supported then e.push (Property.BorderBlockEndWidth v)
  else e.push (Property.BorderBottomWidth v)

/-- Arm `BorderBlockEndStyle`. -/
def eBorderBlockEndStyle (env : FlushEnv) (v : LineStyle) (e : Emit) : Emit :=
  if env.logical_supported then e.push (Property.BorderBlockEndStyle v)
  else e.push (Property.BorderBottomStyle v)

/-- Arm `BorderBlockEndColor`. -/
def eBorderBlockEndColor (env : FlushEnv) (v : CssColor) (e : Emit) : Emit :=
  if env.logical_supported then
    emitFallbacks env.targets Property.BorderBlockEndColor (CssColor.get_fallbacks env.cv) v e
  else eBorderBottomColor env v e

/-- Arm `BorderInlineStart`: `fallbacks!` when logical borders are
supported, else a `BorderLeft`/`BorderRight` rule registration via
`logical_prop!`. -/
def eBorderInlineStart (env : FlushEnv) (v : Border) (e : Emit) : Emit :=
  if env.logical_supported then
    emitFallbacks env.targets Property.BorderInlineStart (Border.get_fallbacks env.cv) v e
  else e.addRule (Property.BorderLeft v) (Property.BorderRight v)

/-- Arm `BorderInlineStartWidth`. -/
def eBorderInlineStartWidth (env : FlushEnv) (v : BorderSideWidth) (e : Emit) : Emit :=
  if env.logical_supported then e.push (Property.BorderInlineStartWidth v)
  else e.addRule (Property.BorderLeftWidth v) (Property.BorderRightWidth v)

/-- Arm `BorderInlineStartStyle`. -/
def eBorderInlineStartStyle (env : FlushEnv) (v : LineStyle) (e : Emit) : Emit :=
  if env.logical_supported then e.push (Property.BorderInlineStartStyle v)
  else e.addRule (Property.BorderLeftStyle v) (Property.BorderRightStyle v)

/-- Arm `BorderInlineStartColor`. -/
def eBorderInlineStartColor (env : FlushEnv) (v : CssColor) (e : Emit) : Emit :=
  if env.logical_supported then
    emitFallbacks env.targets Property.BorderInlineStartColor (CssColor.get_fallbacks env.cv) v e
  else e.addRule (Property.BorderLeftColor v) (Property.BorderRightColor v)

/-- Arm `BorderInlineEnd`. -/
def eBorderInlineEnd (env : FlushEnv) (v : Border) (e : Emit) : Emit :=
  if env.logical_supported then
    emitFallbacks env.targets Property.BorderInlineEnd (Border.get_fallbacks env.cv) v e
  else e.addRule (Property.BorderRight v) (Property.BorderLeft v)

/-- Arm `BorderInlineEndWidth`. -/
def eBorderInlineEndWidth (env : FlushEnv) (v : BorderSideWidth) (e : Emit) : Emit :=
  if env.logical_supported then e.push (Property.BorderInlineEndWidth v)
  else e.addRule (Property.BorderRightWidth v) (Property.BorderLeftWidth v)

/-- Arm `BorderInlineEndStyle`. -/
def eBorderInlineEndStyle (env : FlushEnv) (v : LineStyle) (e : Emit) : Emit :=
  if env.logical_supported then e.push (Property.BorderInlineEndStyle v)
  else e.addRule (Property.BorderRightStyle v) (Property.BorderLeftStyle v)

/-- Arm `BorderInlineEndColor`. -/
def eBorderInlineEndColor (env : FlushEnv) (v : CssColor) (e : Emit) : Emit :=
  if env.logical_supported then
    emitFallbacks env.targets Property.BorderInlineEndColor (CssColor.get_fallbacks env.cv) v e
  else e.addRule (Property.BorderRightColor v) (Property.BorderLeftColor v)

/-- The four emitters (`$prop`, `$width`, `$style`, `$color`) that the
`flush_category!` macro receives for one side. -/
structure SideEmitters where
  side : Border → Emit → Emit
  width : BorderSideWidth → Emit → Emit
  style : LineStyle → Emit → Emit
  color : CssColor → Emit → Emit

/-- Emitters for the physical top side. -/
def physTop (env : FlushEnv) : SideEmitters :=
  ⟨eBorderTop env, eBorderTopWidth env, eBorderTopStyle env, eBorderTopColor env⟩

/-- Emitters for the physical bottom side. -/
def physBottom (env : FlushEnv) : SideEmitters :=
  ⟨eBorderBottom env, eBorderBottomWidth env, eBorderBottomStyle env, eBorderBottomColor env⟩

/-- Emitters for the physical left side. -/
def physLeft (env : FlushEnv) : SideEmitters :=
  ⟨eBorderLeft env, eBorderLeftWidth env, eBorderLeftStyle env, eBorderLeftColor env⟩

/-- Emitters for the physical right side. -/
def physRight (env : FlushEnv) : SideEmitters :=
  ⟨eBorderRight env, eBorderRightWidth env, eBorderRightStyle env, eBorderRightColor env⟩

/-- Emitters for the logical block-start side. -/
def logBlockStart (env : FlushEnv) : SideEmitters :=
  ⟨eBorderBlockStart env, eBorderBlockStartWidth env, eBorderBlockStartStyle env,
    eBorderBlockStartColor env⟩

/-- Emitters for the logical block-end side. -/
def logBlockEnd (env : FlushEnv) : SideEmitters :=
  ⟨eBorderBlockEnd env, eBorderBlockEndWidth env, eBorderBlockEndStyle env,
    eBorderBlockEndColor env⟩

/-- Emitters for the logical inline-start side. -/
def logInlineStart (env : FlushEnv) : SideEmitters :=
  ⟨eBorderInlineStart env, eBorderInlineStartWidth env, eBorderInlineStartStyle env,
    eBorderInlineStartColor env⟩

/-- Emitters for the logical inline-end side. -/
def logInlineEnd (env : FlushEnv) : SideEmitters :=
  ⟨eBorderInlineEnd env, eBorderInlineEndWidth env, eBorderInlineEndStyle env,
    eBorderInlineEndColor env⟩

/-- The `side_diff!` macro (src/properties/border.rs lines 993-1011): when
exactly one sub-property of `o` differs from `b`, emit only it through the
other side's emitters, else emit the full side shorthand. -/
def sideDiff (se : SideEmitters) (b o : BorderShorthand) (e : Emit) : Emit :=
  let eq_width := beqWidth b.width o.width
  let eq_style := beqStyle b.style o.style
  let eq_color := beqColor b.color o.color
  if eq_width && eq_style then se.color (o.color.getD default) e
  else if eq_width && eq_color then se.style (o.style.getD default) e
  else if eq_style && eq_color then se.width (o.width.getD default) e
  else se.side o.to_border e

/-- The `side!` macro (src/properties/border.rs lines 1098-1116): a fully
valid side is emitted as its shorthand, else each present field is emitted
as a longhand (style, then width, then color). -/
def sideEmit (se : SideEmitters) (v : BorderShorthand) (e : Emit) : Emit :=
  if v.is_valid then se.side v.to_border e
  else
    let e := match v.style with
      | some s => se.style s e
      | none => e
    let e := match v.width with
      | some w => se.width w e
      | none => e
    match v.color with
    | some c => se.color c e
    | none => e

/-- The `flush_category!` macro (src/properties/border.rs lines 902-1181):
flushes one quartet of sides (`bs`/`be`/`is0`/`ie` stand for block-start /
block-end / inline-start / inline-end, i.e. top/bottom/left/right in the
physical instantiation). -/
def flushQuartet (env : FlushEnv) (is_logical : Bool)
    (sBS sBE sIS sIE : SideEmitters)
    (bs be is0 ie : BorderShorthand) (e : Emit) : Emit :=
  if bs.is_valid && be.is_valid && is0.is_valid && ie.is_valid then
    let top_eq_bottom := bs.beq be
    let left_eq_right := is0.beq ie
    let top_eq_left := bs.beq is0
    let top_eq_right := bs.beq ie
    let bottom_eq_left := be.beq is0
    let bottom_eq_right := be.beq ie
    let is_eq_width :=
      beqWidth bs.width be.width && beqWidth is0.width ie.width && beqWidth is0.width bs.width
    let is_eq_style :=
      beqStyle bs.style be.style && beqStyle is0.style ie.style && beqStyle is0.style bs.style
    let is_eq_color :=
      beqColor bs.color be.color && beqColor is0.color ie.color && beqColor is0.color bs.color
    -- The `shorthand!` macro, specialised to the all-valid branch where its
    -- field mutations are never observed afterwards.
    let shWidth := fun (e : Emit) =>
      let has_prop := bs.width.isSome && be.width.isSome && is0.width.isSome && ie.width.isSome
      if has_prop then
        if !is_logical ||
            (beqWidth bs.width be.width && beqWidth be.width is0.width &&
              beqWidth is0.width ie.width) then
          eBorderWidthRect env
            ⟨bs.width.getD default, ie.width.getD default, be.width.getD default,
              is0.width.getD default⟩ e
        else e
      else e
    let shStyle := fun (e : Emit) =>
      let has_prop := bs.style.isSome && be.style.isSome && is0.style.isSome && ie.style.isSome
      if has_prop then
        if !is_logical ||
            (beqStyle bs.style be.style && beqStyle be.style is0.style &&
              beqStyle is0.style ie.style) then
          eBorderStyleRect env
            ⟨bs.style.getD default, ie.style.getD default, be.style.getD default,
              is0.style.getD default⟩ e
        else e
      else e
    let shColor := fun (e : Emit) =>
      let has_prop := bs.color.isSome && be.color.isSome && is0.color.isSome && ie.color.isSome
      if has_prop then
        if !is_logical ||
            (beqColor bs.color be.color && beqColor be.color is0.color &&
              beqColor is0.color ie.color) then
          eBorderColorRect env
            ⟨bs.color.getD default, ie.color.getD default, be.color.getD default,
              is0.color.getD default⟩ e
        else e
      else e
    -- The `prop_diff!` macro (lines 973-991).
    let propDiff := fun (b : BorderShorthand) (fb : Emit → Emit) (border_fallback : Bool)
        (e : Emit) =>
      if !is_logical && is_eq_color && is_eq_style then shWidth (eBorder env b.to_border e)
      else if !is_logical && is_eq_width && is_eq_style then shColor (eBorder env b.to_border e)
      else if !is_logical && is_eq_width && is_eq_color then shStyle (eBorder env b.to_border e)
      else fb (if border_fallback then eBorder env b.to_border e else e)
    if top_eq_bottom && top_eq_left && top_eq_right then
      eBorder env bs.to_border e
    else if top_eq_bottom && top_eq_left then
      sideDiff sIE bs ie (eBorder env bs.to_border e)
    else if top_eq_bottom && top_eq_right then
      sideDiff sIS bs is0 (eBorder env bs.to_border e)
    else if left_eq_right && bottom_eq_left then
      sideDiff sBS is0 bs (eBorder env is0.to_border e)
    else if left_eq_right && top_eq_left then
      sideDiff sBE is0 be (eBorder env is0.to_border e)
    else if top_eq_bottom then
      -- Lines 1027-1073: try the border-inline shorthands for the opposite
      -- direction when flushing the logical quartet.
      propDiff bs (fun e =>
        let widthDiff := !beqWidth is0.width bs.width || !beqWidth ie.width bs.width
        let styleDiff := !beqStyle is0.style bs.style || !beqStyle ie.style bs.style
        let colorDiff := !beqColor is0.color bs.color || !beqColor ie.color bs.color
        let diff := (if widthDiff then 1 else 0) + (if styleDiff then 1 else 0) +
          (if colorDiff then 1 else 0)
        let handled_e : Bool × Emit :=
          if is_logical then
            if diff = 1 then
              if !beqWidth is0.width bs.width then
                (true, eBorderInlineWidthPair env
                  ⟨is0.width.getD default, ie.width.getD default⟩ e)
              else if !beqStyle is0.style bs.style then
                (true, eBorderInlineStylePair env
                  ⟨is0.style.getD default, ie.style.getD default⟩ e)
              else if !beqColor is0.color bs.color then
                (true, eBorderInlineColorPair env
                  ⟨is0.color.getD default, ie.color.getD default⟩ e)
              else (false, e)
            else if diff > 1 && beqWidth is0.width ie.width && beqStyle is0.style ie.style &&
                beqColor is0.color ie.color then
              (true, eBorderInline env is0.to_border e)
            else (false, e)
          else (false, e)
        if !handled_e.1 then
          sideDiff sIE bs ie (sideDiff sIS bs is0 handled_e.2)
        else handled_e.2) true e
    else if left_eq_right then
      propDiff is0 (fun e =>
        sideDiff sBE is0 be (sideDiff sBS is0 bs e)) true e
    else if bottom_eq_right then
      propDiff be (fun e =>
        sideDiff sIS be is0 (sideDiff sBS be bs e)) true e
    else
      propDiff bs (fun e =>
        sIE.side ie.to_border (sIS.side is0.to_border
          (sBE.side be.to_border (sBS.side bs.to_border e)))) false e
  else
    -- Branch 2 (lines 1093-1179): not all sides fully valid.  The
    -- `shorthand!` macro takes the fields it consumes, so the side states
    -- are threaded through.
    -- shorthand!(BorderStyle, style)
    let sh :=
      let has_prop := bs.style.isSome && be.style.isSome && is0.style.isSome && ie.style.isSome
      if has_prop &&
          (!is_logical ||
            (beqStyle bs.style be.style && beqStyle be.style is0.style &&
              beqStyle is0.style ie.style)) then
        (({ bs with style := none }, { be with style := none }, { is0 with style := none },
            { ie with style := none }),
          eBorderStyleRect env
            ⟨bs.style.getD default, ie.style.getD default, be.style.getD default,
              is0.style.getD default⟩ e)
      else ((bs, be, is0, ie), e)
    let bs := sh.1.1
    let be := sh.1.2.1
    let is0 := sh.1.2.2.1
    let ie := sh.1.2.2.2
    let e := sh.2
    -- shorthand!(BorderWidth, width)
    let sh :=
      let has_prop := bs.width.isSome && be.width.isSome && is0.width.isSome && ie.width.isSome
      if has_prop &&
          (!is_logical ||
            (beqWidth bs.width be.width && beqWidth be.width is0.width &&
              beqWidth is0.width ie.width)) then
        (({ bs with width := none }, { be with width := none }, { is0 with width := none },
            { ie with width := none }),
          eBorderWidthRect env
            ⟨bs.width.getD default, ie.width.getD default, be.width.getD default,
              is0.width.getD default⟩ e)
      else ((bs, be, is0, ie), e)
    let bs := sh.1.1
    let be := sh.1.2.1
    let is0 := sh.1.2.2.1
    let ie := sh.1.2.2.2
    let e := sh.2
    -- shorthand!(BorderColor, color)
    let sh :=
      let has_prop := bs.color.isSome && be.color.isSome && is0.color.isSome && ie.color.isSome
      if has_prop &&
          (!is_logical ||
            (beqColor bs.color be.color && beqColor be.color is0.color &&
              beqColor is0.color ie.color)) then
        (({ bs with color := none }, { be with color := none }, { is0 with color := none },
            { ie with color := none }),
          eBorderColorRect env
            ⟨bs.color.getD default, ie.color.getD default, be.color.getD default,
              is0.color.getD default⟩ e)
      else ((bs, be, is0, ie), e)
    let bs := sh.1.1
    let be := sh.1.2.1
    let is0 := sh.1.2.2.1
    let ie := sh.1.2.2.2
    let e := sh.2
    -- The block axis (lines 1118-1139).
    let blk :=
      if is_logical && bs.beq be && bs.is_valid then
        ((bs, be),
          if env.logical_supported then
            if env.logical_shorthand_supported then eBorderBlock env bs.to_border e
            else eBorderBlockEnd env bs.to_border (eBorderBlockStart env bs.to_border e)
          else eBorderBottom env bs.to_border (eBorderTop env bs.to_border e))
      else
        let ls :=
          if is_logical && env.logical_shorthand_supported && !bs.is_valid && !be.is_valid then
            -- logical_shorthand!(BorderBlockStyle/Width/Color)
            let s1 :=
              if bs.style.isSome && be.style.isSome then
                (({ bs with style := none }, { be with style := none }),
                  eBorderBlockStylePair env ⟨bs.style.getD default, be.style.getD default⟩ e)
              else ((bs, be), e)
            let bs := s1.1.1
            let be := s1.1.2
            let e := s1.2
            let s2 :=
              if bs.width.isSome && be.width.isSome then
                (({ bs with width := none }, { be with width := none }),
                  eBorderBlockWidthPair env ⟨bs.width.getD default, be.width.getD default⟩ e)
              else ((bs, be), e)
            let bs := s2.1.1
            let be := s2.1.2
            let e := s2.2
            let s3 :=
              if bs.color.isSome && be.color.isSome then
                (({ bs with color := none }, { be with color := none }),
                  eBorderBlockColorPair env ⟨bs.color.getD default, be.color.getD default⟩ e)
              else ((bs, be), e)
            s3
          else ((bs, be), e)
        let bs := ls.1.1
        let be := ls.1.2
        let e := ls.2
        let e := sideEmit sBS bs e
        let e := sideEmit sBE be e
        ((bs, be), e)
    let e := blk.2
    -- The inline axis (lines 1141-1178).
    let inl :=
      if is_logical && is0.beq ie && is0.is_valid then
        ((is0, ie),
          if env.logical_supported then
            if env.logical_shorthand_supported then eBorderInline env is0.to_border e
            else eBorderInlineEnd env is0.to_border (eBorderInlineStart env is0.to_border e)
          else eBorderRight env is0.to_border (eBorderLeft env is0.to_border e))
      else
        let ls :=
          if is_logical && !is0.is_valid && !ie.is_valid then
            if env.logical_shorthand_supported then
              -- logical_shorthand!(BorderInlineStyle/Width/Color)
              let s1 :=
                if is0.style.isSome && ie.style.isSome then
                  (({ is0 with style := none }, { ie with style := none }),
                    eBorderInlineStylePair env ⟨is0.style.getD default, ie.style.getD default⟩ e)
                else ((is0, ie), e)
              let is0 := s1.1.1
              let ie := s1.1.2
              let e := s1.2
              let s2 :=
                if is0.width.isSome && ie.width.isSome then
                  (({ is0 with width := none }, { ie with width := none }),
                    eBorderInlineWidthPair env ⟨is0.width.getD default, ie.width.getD default⟩ e)
                else ((is0, ie), e)
              let is0 := s2.1.1
              let ie := s2.1.2
              let e := s2.2
              let s3 :=
                if is0.color.isSome && ie.color.isSome then
                  (({ is0 with color := none }, { ie with color := none }),
                    eBorderInlineColorPair env ⟨is0.color.getD default, ie.color.getD default⟩ e)
                else ((is0, ie), e)
              s3
            else
              -- inline_prop!: equal inline pairs lower to physical left/right.
              let s1 :=
                if is0.style.isSome && beqStyle is0.style ie.style then
                  (({ is0 with style := none }, { ie with style := none }),
                    (e.push (Property.BorderLeftStyle (is0.style.getD default))).push
                      (Property.BorderRightStyle (ie.style.getD default)))
                else ((is0, ie), e)
              let is0 := s1.1.1
              let ie := s1.1.2
              let e := s1.2
              let s2 :=
                if is0.width.isSome && beqWidth is0.width ie.width then
                  (({ is0 with width := none }, { ie with width := none }),
                    (e.push (Property.BorderLeftWidth (is0.width.getD default))).push
                      (Property.BorderRightWidth (ie.width.getD default)))
                else ((is0, ie), e)
              let is0 := s2.1.1
              let ie := s2.1.2
              let e := s2.2
              let s3 :=
                if is0.color.isSome && beqColor is0.color ie.color then
                  (({ is0 with color := none }, { ie with color := none }),
                    eBorderRightColor env (ie.color.getD default)
                      (eBorderLeftColor env (is0.color.getD default) e))
                else ((is0, ie), e)
              s3
          else ((is0, ie), e)
        let is0 := ls.1.1
        let ie := ls.1.2
        let e := ls.2
        let e := sideEmit sIS is0 e
        let e := sideEmit sIE ie e
        ((is0, ie), e)
    inl.2

/-!
### The border handler (src/properties/border.rs lines 496-699)
-/

/-- Modelled from the spec: the declaration category tag from
src/logical.rs (not among the sources), with values Physical, Logical and
an uninitialised default. -/
inductive PropertyCategory where
  | Physical
  | Logical
  | Uninit
deriving DecidableEq

/-- The border handler state (`struct BorderHandler`).  The embedded
border-image and border-radius handlers live in source files that are not
part of the sources here; modelled from the spec, only their pending output
is tracked (a fresh handler holds none, and emits nothing on finalize). -/
structure BorderHandler where
  targets : Option Targets
  border_top : BorderShorthand
  border_bottom : BorderShorthand
  border_left : BorderShorthand
  border_right : BorderShorthand
  border_block_start : BorderShorthand
  border_block_end : BorderShorthand
  border_inline_start : BorderShorthand
  border_inline_end : BorderShorthand
  category : PropertyCategory
  border_image_handler : List Property
  border_radius_handler : List Property
  has_any : Bool
deriving DecidableEq

/-- Constructor `BorderHandler::new` (source lines 514-531). -/
def BorderHandler.new (targets : Option Targets) : BorderHandler where
  targets := targets
  border_top := default
  border_bottom := default
  border_left := default
  border_right := default
  border_block_start := default
  border_block_end := default
  border_inline_start := default
  border_inline_end := default
  category := PropertyCategory.Uninit
  border_image_handler := []
  border_radius_handler := []
  has_any := false

/-- Method `BorderHandler::flush` (source lines 702-1239): emits the
physical quartet, then the logical quartet, and resets all side states.
Returns nothing when `has_any` is unset. -/
def BorderHandler.flush (cv : Conversions) (st : BorderHandler) (ctx : SupportsCtx) :
    BorderHandler × Emit :=
  if !st.has_any then (st, ([], []))
  else
    let env : FlushEnv :=
      ⟨cv, st.targets, ctx.logicalBorders, ctx.logicalBorderShorthand⟩
    let e := flushQuartet env false (physTop env) (physBottom env) (physLeft env)
      (physRight env) st.border_top st.border_bottom st.border_left st.border_right ([], [])
    let e := flushQuartet env true (logBlockStart env) (logBlockEnd env) (logInlineStart env)
      (logInlineEnd env) st.border_block_start st.border_block_end st.border_inline_start
      st.border_inline_end e
    ({ st with
        border_top := st.border_top.reset
        border_bottom := st.border_bottom.reset
        border_left := st.border_left.reset
        border_right := st.border_right.reset
        border_block_start := st.border_block_start.reset
        border_block_end := st.border_block_end.reset
        border_inline_start := st.border_inline_start.reset
        border_inline_end := st.border_inline_end.reset
        has_any := false }, e)

/-- The `property!` / `set_border!` macros of `handle_property` (source
lines 542-562): flush when the incoming category differs from the recorded
one, apply the field update, then record the category and `has_any`. -/
def propertyStep (cv : Conversions) (cat : PropertyCategory)
    (upd : BorderHandler → BorderHandler) (st : BorderHandler) (ctx : SupportsCtx) :
    BorderHandler × Emit :=
  if cat ≠ st.category then
    let (st', e) := BorderHandler.flush cv st ctx
    ({ upd st' with category := cat, has_any := true }, e)
  else
    ({ upd st with category := cat, has_any := true }, ([], []))

/-- Two chained `property!` invocations (the axis-pair arms). -/
def propertyStep2 (cv : Conversions) (cat : PropertyCategory)
    (upd1 upd2 : BorderHandler → BorderHandler) (st : BorderHandler) (ctx : SupportsCtx) :
    BorderHandler × Emit :=
  let (st1, e1) := propertyStep cv cat upd1 st ctx
  let (st2, e2) := propertyStep cv cat upd2 st1 ctx
  (st2, e1.append e2)

/-- Method `PropertyHandler::handle_property` for the border handler
(source lines 534-692), restricted to the border-family fragment of
`Property` it owns (the `Unparsed` safeguard and the delegation to the
border-image/border-radius handlers concern source files outside the
excerpt). -/
def BorderHandler.handle_property (cv : Conversions) (st : BorderHandler) (p : Property)
    (ctx : SupportsCtx) : BorderHandler × Emit :=
  match p with
  | .BorderTopColor val =>
    propertyStep cv .Physical
      (fun s => { s with border_top := { s.border_top with color := some val } }) st ctx
  | .BorderBottomColor val =>
    propertyStep cv .Physical
      (fun s => { s with border_bottom := { s.border_bottom with color := some val } }) st ctx
  | .BorderLeftColor val =>
    propertyStep cv .Physical
      (fun s => { s with border_left := { s.border_left with color := some val } }) st ctx
  | .BorderRightColor val =>
    propertyStep cv .Physical
      (fun s => { s with border_right := { s.border_right with color := some val } }) st ctx
  | .BorderBlockStartColor val =>
    propertyStep cv .Logical
      (fun s => { s with border_block_start := { s.border_block_start with color := some val } })
      st ctx
  | .BorderBlockEndColor val =>
    propertyStep cv .Logical
      (fun s => { s with border_block_end := { s.border_block_end with color := some val } })
      st ctx
  | .BorderBlockColor val =>
    propertyStep2 cv .Logical
      (fun s => { s with border_block_start := { s.border_block_start with color := some val.start } })
      (fun s => { s with border_block_end := { s.border_block_end with color := some val.end_ } })
      st ctx
  | .BorderInlineStartColor val =>
    propertyStep cv .Logical
      (fun s => { s with border_inline_start := { s.border_inline_start with color := some val } })
      st ctx
  | .BorderInlineEndColor val =>
    propertyStep cv .Logical
      (fun s => { s with border_inline_end := { s.border_inline_end with color := some val } })
      st ctx
  | .BorderInlineColor val =>
    propertyStep2 cv .Logical
      (fun s => { s with border_inline_start := { s.border_inline_start with color := some val.start } })
      (fun s => { s with border_inline_end := { s.border_inline_end with color := some val.end_ } })
      st ctx
  | .BorderTopWidth val =>
    propertyStep cv .Physical
      (fun s => { s with border_top := { s.border_top with width := some val } }) st ctx
  | .BorderBottomWidth val =>
    propertyStep cv .Physical
      (fun s => { s with border_bottom := { s.border_bottom with width := some val } }) st ctx
  | .BorderLeftWidth val =>
    propertyStep cv .Physical
      (fun s => { s with border_left := { s.border_left with width := some val } }) st ctx
  | .BorderRightWidth val =>
    propertyStep cv .Physical
      (fun s => { s with border_right := { s.border_right with width := some val } }) st ctx
  | .BorderBlockStartWidth val =>
    propertyStep cv .Logical
      (fun s => { s with border_block_start := { s.border_block_start with width := some val } })
      st ctx
  | .BorderBlockEndWidth val =>
    propertyStep cv .Logical
      (fun s => { s with border_block_end := { s.border_block_end with width := some val } })
      st ctx
  | .BorderBlockWidth val =>
    propertyStep2 cv .Logical
      (fun s => { s with border_block_start := { s.border_block_start with width := some val.start } })
      (fun s => { s with border_block_end := { s.border_block_end with width := some val.end_ } })
      st ctx
  | .BorderInlineStartWidth val =>
    propertyStep cv .Logical
      (fun s => { s with border_inline_start := { s.border_inline_start with width := some val } })
      st ctx
  | .BorderInlineEndWidth val =>
    propertyStep cv .Logical
      (fun s => { s with border_inline_end := { s.border_inline_end with width := some val } })
      st ctx
  | .BorderInlineWidth val =>
    propertyStep2 cv .Logical
      (fun s => { s with border_inline_start := { s.border_inline_start with width := some val.start } })
      (fun s => { s with border_inline_end := { s.border_inline_end with width := some val.end_ } })
      st ctx
  | .BorderTopStyle val =>
    propertyStep cv .Physical
      (fun s => { s with border_top := { s.border_top with style := some val } }) st ctx
  | .BorderBottomStyle val =>
    propertyStep cv .Physical
      (fun s => { s with border_bottom := { s.border_bottom with style := some val } }) st ctx
  | .BorderLeftStyle val =>
    propertyStep cv .Physical
      (fun s => { s with border_left := { s.border_left with style := some val } }) st ctx
  | .BorderRightStyle val =>
    propertyStep cv .Physical
      (fun s => { s with border_right := { s.border_right with style := some val } }) st ctx
  | .BorderBlockStartStyle val =>
    propertyStep cv .Logical
      (fun s => { s with border_block_start := { s.border_block_start with style := some val } })
      st ctx
  | .BorderBlockEndStyle val =>
    propertyStep cv .Logical
      (fun s => { s with border_block_end := { s.border_block_end with style := some val } })
      st ctx
  | .BorderBlockStyle val =>
    propertyStep2 cv .Logical
      (fun s => { s with border_block_start := { s.border_block_start with style := some val.start } })
      (fun s => { s with border_block_end := { s.border_block_end with style := some val.end_ } })
      st ctx
  | .BorderInlineStartStyle val =>
    propertyStep cv .Logical
      (fun s => { s with border_inline_start := { s.border_inline_start with style := some val } })
      st ctx
  | .BorderInlineEndStyle val =>
    propertyStep cv .Logical
      (fun s => { s with border_inline_end := { s.border_inline_end with style := some val } })
      st ctx
  | .BorderInlineStyle val =>
    propertyStep2 cv .Logical
      (fun s => { s with border_inline_start := { s.border_inline_start with style := some val.start } })
      (fun s => { s with border_inline_end := { s.border_inline_end with style := some val.end_ } })
      st ctx
  | .BorderTop val =>
    propertyStep cv .Physical
      (fun s => { s with border_top := s.border_top.set_border val }) st ctx
  | .BorderBottom val =>
    propertyStep cv .Physical
      (fun s => { s with border_bottom := s.border_bottom.set_border val }) st ctx
  | .BorderLeft val =>
    propertyStep cv .Physical
      (fun s => { s with border_left := s.border_left.set_border val }) st ctx
  | .BorderRight val =>
    propertyStep cv .Physical
      (fun s => { s with border_right := s.border_right.set_border val }) st ctx
  | .BorderBlockStart val =>
    propertyStep cv .Logical
      (fun s => { s with border_block_start := s.border_block_start.set_border val }) st ctx
  | .BorderBlockEnd val =>
    propertyStep cv .Logical
      (fun s => { s with border_block_end := s.border_block_end.set_border val }) st ctx
  | .BorderInlineStart val =>
    propertyStep cv .Logical
      (fun s => { s with border_inline_start := s.border_inline_start.set_border val }) st ctx
  | .BorderInlineEnd val =>
    propertyStep cv .Logical
      (fun s => { s with border_inline_end := s.border_inline_end.set_border val }) st ctx
  | .BorderBlock val =>
    propertyStep2 cv .Logical
      (fun s => { s with border_block_start := s.border_block_start.set_border val })
      (fun s => { s with border_block_end := s.border_block_end.set_border val }) st ctx
  | .BorderInline val =>
    propertyStep2 cv .Logical
      (fun s => { s with border_inline_start := s.border_inline_start.set_border val })
      (fun s => { s with border_inline_end := s.border_inline_end.set_border val }) st ctx
  | .BorderWidth val =>
    ({ st with
        border_top := { st.border_top with width := some val.top }
        border_right := { st.border_right with width := some val.right }
        border_bottom := { st.border_bottom with width := some val.bottom }
        border_left := { st.border_left with width := some val.left }
        border_block_start := { st.border_block_start with width := none }
        border_block_end := { st.border_block_end with width := none }
        border_inline_start := { st.border_inline_start with width := none }
        border_inline_end := { st.border_inline_end with width := none }
        has_any := true }, ([], []))
  | .BorderStyle val =>
    ({ st with
        border_top := { st.border_top with style := some val.top }
        border_right := { st.border_right with style := some val.right }
        border_bottom := { st.border_bottom with style := some val.bottom }
        border_left := { st.border_left with style := some val.left }
        border_block_start := { st.border_block_start with style := none }
        border_block_end := { st.border_block_end with style := none }
        border_inline_start := { st.border_inline_start with style := none }
        border_inline_end := { st.border_inline_end with style := none }
        has_any := true }, ([], []))
  | .BorderColor val =>
    ({ st with
        border_top := { st.border_top with color := some val.top }
        border_right := { st.border_right with color := some val.right }
        border_bottom := { st.border_bottom with color := some val.bottom }
        border_left := { st.border_left with color := some val.left }
        border_block_start := { st.border_block_start with color := none }
        border_block_end := { st.border_block_end with color := none }
        border_inline_start := { st.border_inline_start with color := none }
        border_inline_end := { st.border_inline_end with color := none }
        has_any := true }, ([], []))
  | .Border val =>
    ({ st with
        border_top := st.border_top.set_border val
        border_bottom := st.border_bottom.set_border val
        border_left := st.border_left.set_border val
        border_right := st.border_right.set_border val
        border_block_start := st.border_block_start.reset
        border_block_end := st.border_block_end.reset
        border_inline_start := st.border_inline_start.reset
        border_inline_end := st.border_inline_end.reset
        border_image_handler := []
        has_any := true }, ([], []))

/-- Method `PropertyHandler::finalize` (source lines 694-698): flush the
side states, then drain the embedded handlers. -/
def BorderHandler.finalize (cv : Conversions) (st : BorderHandler) (ctx : SupportsCtx) :
    BorderHandler × Emit :=
  let (st1, e) := BorderHandler.flush cv st ctx
  ({ st1 with border_image_handler := [], border_radius_handler := [] },
    (e.1 ++ st1.border_image_handler ++ st1.border_radius_handler, e.2))

/-- Fold of `handle_property` over a declaration stream. -/
def BorderHandler.handle_list (cv : Conversions) (st : BorderHandler) (ps : List Property)
    (ctx : SupportsCtx) : BorderHandler × Emit :=
  ps.foldl (fun (acc : BorderHandler × Emit) p =>
    let (st', e) := BorderHandler.handle_property cv acc.1 p ctx
    (st', acc.2.append e)) (st, ([], []))

/-- The declaration category that the `property!`/`set_border!` macro arms
record for each handled declaration; `none` for the four-side shorthands
`border-width`/`border-style`/`border-color` and `border`, whose arms
neither consult nor update the category. -/
def Property.categoryOf : Property → Option PropertyCategory
  | .BorderTopColor _ | .BorderBottomColor _ | .BorderLeftColor _ | .BorderRightColor _
  | .BorderTopWidth _ | .BorderBottomWidth _ | .BorderLeftWidth _ | .BorderRightWidth _
  | .BorderTopStyle _ | .BorderBottomStyle _ | .BorderLeftStyle _ | .BorderRightStyle _
  | .BorderTop _ | .BorderBottom _ | .BorderLeft _ | .BorderRight _ =>
    some PropertyCategory.Physical
  | .BorderBlockStartColor _ | .BorderBlockEndColor _ | .BorderBlockColor _
  | .BorderInlineStartColor _ | .BorderInlineEndColor _ | .BorderInlineColor _
  | .BorderBlockStartWidth _ | .BorderBlockEndWidth _ | .BorderBlockWidth _
  | .BorderInlineStartWidth _ | .BorderInlineEndWidth _ | .BorderInlineWidth _
  | .BorderBlockStartStyle _ | .BorderBlockEndStyle _ | .BorderBlockStyle _
  | .BorderInlineStartStyle _ | .BorderInlineEndStyle _ | .BorderInlineStyle _
  | .BorderBlockStart _ | .BorderBlockEnd _ | .BorderInlineStart _ | .BorderInlineEnd _
  | .BorderBlock _ | .BorderInline _ =>
    some PropertyCategory.Logical
  | .BorderWidth _ | .BorderStyle _ | .BorderColor _ | .Border _ => none

/-!
## Hue interpolation and color-mix (src/values/color.rs lines 2468-2818)
-/

/-- The hue interpolation method (`enum HueInterpolationMethod`). -/
inductive HueInterpolationMethod where
  | Shorter
  | Longer
  | Increasing
  | Decreasing
  | Specified
deriving DecidableEq

/-- Reduction of a finite hue into `[0, 360)` by the expression
`((h % 360) + 360) % 360`. -/
def hueNormalize (h : ℚ) : ℚ :=
  rustRem (rustRem h 360 + 360) 360

/-- Method `HueInterpolationMethod::interpolate` (src/values/color.rs lines
2776-2818): both angles are first reduced by `((x % 360) + 360) % 360`
unless the method is `Specified`, then shifted per method.  NaN hues pass
through untouched (every comparison on NaN is false). -/
def HueInterpolationMethod.interpolate (m : HueInterpolationMethod) (a b : FP) : FP × FP :=
  let a := if m ≠ HueInterpolationMethod.Specified then frem (fadd (frem a 360) (some 360)) 360
    else a
  let b := if m ≠ HueInterpolationMethod.Specified then frem (fadd (frem b 360) (some 360)) 360
    else b
  match m with
  | .Shorter =>
    let delta := fsub b a
    if fgtc delta 180 then (fadd a (some 360), b)
    else if fltc delta (-180) then (a, fadd b (some 360))
    else (a, b)
  | .Longer =>
    let delta := fsub b a
    if fgtc delta 0 && fltc delta 180 then (fadd a (some 360), b)
    else if fgtc delta (-180) && fltc delta 0 then (a, fadd b (some 360))
    else (a, b)
  | .Increasing =>
    if fltf b a then (a, fadd b (some 360)) else (a, b)
  | .Decreasing =>
    if fltf a b then (fadd a (some 360), b) else (a, b)
  | .Specified => (a, b)

/-- The color-space tags returned by `CssColor::get_type_id` (src/values/
color.rs lines 2469-2495); `CurrentColor` is `unreachable!()` there and is
mapped to `none`. -/
inductive SpaceTag where
  | srgb
  | srgbLinear
  | p3
  | a98
  | prophoto
  | rec2020
  | xyzd50
  | xyzd65
  | lab
  | lch
  | oklab
  | oklch
  | hsl
  | hwb
deriving DecidableEq

/-- Method `CssColor::get_type_id`. -/
def CssColor.get_type_id : CssColor → Option SpaceTag
  | .RGBA _ => some .srgb
  | .LAB l =>
    match l with
    | .LAB _ => some .lab
    | .LCH _ => some .lch
    | .OKLAB _ => some .oklab
    | .OKLCH _ => some .oklch
  | .Predefined p =>
    match p with
    | .SRGB _ => some .srgb
    | .SRGBLinear _ => some .srgbLinear
    | .DisplayP3 _ => some .p3
    | .A98 _ => some .a98
    | .ProPhoto _ => some .prophoto
    | .Rec2020 _ => some .rec2020
    | .XYZd50 _ => some .xyzd50
    | .XYZd65 _ => some .xyzd65
  | .Float f =>
    match f with
    | .RGB _ => some .srgb
    | .HSL _ => some .hsl
    | .HWB _ => some .hwb
  | .CurrentColor => none

/-- The `From<&CssColor> for LCH` conversion, restricted to the fragment
embedded here: on an `lch()` color it is the identity extraction of the
payload (no `resolve_missing` is applied on that path); conversions from
every other space run the floating-point matrix pipeline and are outside
the embedding. -/
def LCH.fromCssFragment : CssColor → Option LCH
  | .LAB (.LCH v) => some v
  | _ => none

/-- Method `adjust_powerless_components` for `LCH` (the
`adjust_powerless_lch!` macro, src/values/color.rs lines 2670-2689): hue is
powerless when chroma is (nearly) zero; chroma and hue are powerless when
lightness is (nearly) zero. -/
def LCH.adjust_powerless_components (x : LCH) : LCH :=
  let x := if fabsLt x.c f32Epsilon then { x with h := none } else x
  if fabsLt x.l f32Epsilon then { x with c := none, h := none } else x

/-- Method `fill_missing_components` for `LCH` (the `interpolate!` macro,
src/values/color.rs lines 2588-2604): NaN components are replaced by the
other color's value. -/
def LCH.fill_missing_components (x o : LCH) : LCH where
  l := if x.l.isNone then o.l else x.l
  c := if x.c.isNone then o.c else x.c
  h := if x.h.isNone then o.h else x.h
  alpha := if x.alpha.isNone then o.alpha else x.alpha

/-- Method `premultiply` for `LCH` (the `polar_premultiply!` macro,
src/values/color.rs lines 2640-2645): lightness and chroma are multiplied
by a non-NaN alpha; the polar hue is skipped. -/
def LCH.premultiply (x : LCH) : LCH :=
  if x.alpha.isSome then { x with l := fmul x.l x.alpha, c := fmul x.c x.alpha }
  else x

/-- Method `unpremultiply` for `LCH` (src/values/color.rs lines 2647-2654):
the hue is reduced modulo 360, then lightness and chroma are divided by a
non-NaN alpha and alpha is scaled by the multiplier. -/
def LCH.unpremultiply (x : LCH) (alpha_multiplier : ℚ) : LCH :=
  let x := { x with h := frem x.h 360 }
  if x.alpha.isSome then
    { x with
        l := fdiv x.l x.alpha
        c := fdiv x.c x.alpha
        alpha := fmul x.alpha (some alpha_multiplier) }
  else x

/-- Method `interpolate` for `LCH` (the `interpolate!` macro): the weighted
component sum. -/
def LCH.interpolate (x : LCH) (p1 : ℚ) (o : LCH) (p2 : ℚ) : LCH where
  l := fadd (fmul x.l (some p1)) (fmul o.l (some p2))
  c := fadd (fmul x.c (some p1)) (fmul o.c (some p2))
  h := fadd (fmul x.h (some p1)) (fmul o.h (some p2))
  alpha := fadd (fmul x.alpha (some p1)) (fmul o.alpha (some p2))

/-- Steps 3-7 of `CssColor::interpolate` (src/values/color.rs lines
2542-2566) specialised to the `LCH` interpolation space: fill missing
components, adjust hues, premultiply, normalise the percentages, take the
weighted sum, and un-premultiply.  The percentage normalisation divides
exactly in ℚ; the source rejects `p1 + p2 == 0` at parse time. -/
def lchPipelineCore (first second : LCH) (p1 p2 : ℚ) (m : HueInterpolationMethod) : LCH :=
  let first := first.fill_missing_components second
  let second := second.fill_missing_components first
  let hues := m.interpolate first.h second.h
  let first := { first with h := hues.1 }
  let second := { second with h := hues.2 }
  let first := first.premultiply
  let second := second.premultiply
  let alpha_multiplier := p1 + p2
  let pm : ℚ × ℚ × ℚ :=
    if alpha_multiplier ≠ 1 then
      (p1 / alpha_multiplier, p2 / alpha_multiplier,
        if 1 < alpha_multiplier then 1 else alpha_multiplier)
    else (p1, p2, alpha_multiplier)
  let result := first.interpolate pm.1 second pm.2.1
  result.unpremultiply pm.2.2

/-- Method `CssColor::interpolate` (src/values/color.rs lines 2499-2567)
specialised to `T = LCH` and restricted to inputs whose conversion into the
interpolation space is embedded (`lch()` inputs; other spaces would invoke
the floating-point conversion pipeline and yield `none` here).  The
powerless-component adjustment runs only on an input whose `TypeId` differs
from the interpolation space, i.e. only on converted inputs.  `LCH` is an
unbounded space, so `in_gamut` is constantly true and the gamut-mapping
step (lines 2525-2531) is unreachable. -/
def CssColor.interpolate_lch (c1 : CssColor) (p1 : ℚ) (c2 : CssColor) (p2 : ℚ)
    (m : HueInterpolationMethod) : Option CssColor :=
  match c1.get_type_id, c2.get_type_id with
  | some t1, some t2 =>
    match LCH.fromCssFragment c1, LCH.fromCssFragment c2 with
    | some first, some second =>
      let converted_first := t1 ≠ SpaceTag.lch
      let converted_second := t2 ≠ SpaceTag.lch
      let first := if converted_first then first.adjust_powerless_components else first
      let second := if converted_second then second.adjust_powerless_components else second
      some (CssColor.LAB (LABColor.LCH (lchPipelineCore first second p1 p2 m)))
    | _, _ => none
  | _, _ => none

/-- Modelled from the spec: the same interpolation with the powerless
components of each of the two colors marked unconditionally ("Mark
powerless components as NaN: ... for every pair of input colors, including
an input that was already expressed in space T"), for comparison with the
implementation's converted-only marking. -/
def CssColor.interpolate_lch_specMarked (c1 : CssColor) (p1 : ℚ) (c2 : CssColor) (p2 : ℚ)
    (m : HueInterpolationMethod) : Option CssColor :=
  match c1.get_type_id, c2.get_type_id with
  | some _, some _ =>
    match LCH.fromCssFragment c1, LCH.fromCssFragment c2 with
    | some first, some second =>
      let first := first.adjust_powerless_components
      let second := second.adjust_powerless_components
      some (CssColor.LAB (LABColor.LCH (lchPipelineCore first second p1 p2 m)))
    | _, _ => none
  | _, _ => none

/-- A conversion assignment used to instantiate closed statements whose
scenarios carry no browser targets: on such runs the `fallbacks!` macro
never invokes a conversion, so the emitted declarations are independent of
this choice. -/
def idConversions : Conversions := ⟨id, id, id⟩

/-- The color `red` (an `RGBA` value, which never needs fallbacks). -/
def red : CssColor := .RGBA ⟨255, 0, 0, 255⟩

/-- First step of the C5 counterexample: a logical color declaration on a
fresh handler. -/
def c5run1 : BorderHandler × Emit :=
  BorderHandler.handle_property idConversions (BorderHandler.new none)
    (Property.BorderBlockStartColor red) ⟨true, true⟩

/-- Second step of the C5 counterexample: the four-side `border-width`
shorthand (a physical-family declaration) arriving while the recorded
category is `Logical` and a logical color is pending. -/
def c5run2 : BorderHandler × Emit :=
  BorderHandler.handle_property idConversions c5run1.1
    (Property.BorderWidth ⟨.Length ⟨1⟩, .Length ⟨1⟩, .Length ⟨1⟩, .Length ⟨1⟩⟩) ⟨true, true⟩

/-- The `border` value `1px solid red` of scenario S1. -/
def b1px : Border := ⟨.Length ⟨1⟩, .Solid, red⟩

/-- The S1 declaration stream: the four physical per-side shorthands, each
`1px solid red`. -/
def s1decls : List Property :=
  [.BorderTop b1px, .BorderRight b1px, .BorderBottom b1px, .BorderLeft b1px]

/-- The C1-counterexample handler state: all four physical sides pending as
`1px solid red`, plus a pending logical block-start width. -/
def c1state : BorderHandler where
  targets := none
  border_top := ⟨some (.Length ⟨1⟩), some .Solid, some red⟩
  border_bottom := ⟨some (.Length ⟨1⟩), some .Solid, some red⟩
  border_left := ⟨some (.Length ⟨1⟩), some .Solid, some red⟩
  border_right := ⟨some (.Length ⟨1⟩), some .Solid, some red⟩
  border_block_start := ⟨some (.Length ⟨2⟩), none, none⟩
  border_block_end := default
  border_inline_start := default
  border_inline_end := default
  category := .Physical
  border_image_handler := []
  border_radius_handler := []
  has_any := true

/-- First color of the C7 counterexample: `lch(50% 0 120)` — chroma zero, so
its hue is powerless by the per-space rule. -/
def lchA : CssColor := .LAB (.LCH ⟨some (1/2), some 0, some 120, some 1⟩)

/-- Second color of the C7 counterexample: `lch(50% 0.1 30)`. -/
def lchB : CssColor := .LAB (.LCH ⟨some (1/2), some (1/10), some 30, some 1⟩)

/-!
## Helper lemmas
-/

/-- Emitting a list of declarations by repeated pushes appends their images. -/
theorem foldl_push_eq {α : Type} (mk : α → Property) (l : List α) (e : Emit) :
    l.foldl (fun acc fb => acc.push (mk fb)) e = (e.1 ++ l.map mk, e.2) := by
  induction l generalizing e with
  | nil => simp
  | cons x xs ih =>
    rw [List.foldl_cons, ih]
    simp [Emit.push]

/-- Unfolding of the `fallbacks!` helper when targets are present. -/
theorem emitFallbacks_some {α : Type} (t : Targets) (mk : α → Property)
    (getFb : α → Targets → List α × α) (val : α) (e : Emit) :
    emitFallbacks (some t) mk getFb val e =
      (e.1 ++ (getFb val t).1.map mk ++ [mk (getFb val t).2], e.2) := by
  unfold emitFallbacks
  rcases h : getFb val t with ⟨fbs, v'⟩
  simp only [h]
  rw [foldl_push_eq]
  simp [Emit.push]

/-!
## Claim theorems
-/

/-- C10.  For every `BorderShorthand`: `is_valid` holds iff all three fields
are present; under `is_valid` the `to_border` unwraps are safe and return
exactly the stored triple; after `set_border b` the state is valid and
`to_border` yields `b`; after `reset` the state is invalid. -/
theorem borderShorthand_state_ops :
    (∀ s : BorderShorthand,
      s.is_valid = true ↔ ∃ w st c, s = ⟨some w, some st, some c⟩) ∧
    (∀ (s : BorderShorthand) (w : BorderSideWidth) (st : LineStyle) (c : CssColor),
      s.width = some w → s.style = some st → s.color = some c →
      s.to_border_opt = some ⟨w, st, c⟩) ∧
    (∀ (s : BorderShorthand) (b : Border),
      (s.set_border b).is_valid = true ∧ (s.set_border b).to_border_opt = some b) ∧
    (∀ s : BorderShorthand, s.reset.is_valid = false) := by
  refine ⟨?_, ?_, ?_, ?_⟩
  · rintro ⟨w, st, c⟩
    constructor
    · intro h
      rcases w with _ | w <;> rcases st with _ | st <;> rcases c with _ | c <;>
        simp_all [BorderShorthand.is_valid]
    · rintro ⟨w', st', c', h⟩
      cases h
      simp [BorderShorthand.is_valid]
  · intro s w st c h1 h2 h3
    simp [BorderShorthand.to_border_opt, h1, h2, h3]
  · intro s b
    cases b
    simp [BorderShorthand.set_border, BorderShorthand.is_valid, BorderShorthand.to_border_opt]
  · intro s
    simp [BorderShorthand.reset, BorderShorthand.is_valid]

/-- Witness for C10 at a concrete side state. -/
theorem borderShorthand_state_ops_witness :
    BorderShorthand.to_border_opt
        ⟨some BorderSideWidth.Thin, some LineStyle.Solid, some CssColor.CurrentColor⟩ =
      some ⟨BorderSideWidth.Thin, LineStyle.Solid, CssColor.CurrentColor⟩ :=
  borderShorthand_state_ops.2.1 _ _ _ _ rfl rfl rfl

/-- C8 counterexample.  `resolve_missing` on a color whose alpha is NaN
(`none`) resolves the alpha to `0.0` rather than preserving its
missingness. -/
theorem resolve_missing_alpha_counterexample :
    (SpaceColor.resolve_missing ⟨some 1, some 0, some 0, none⟩).alpha = some 0 ∧
      (SpaceColor.resolve_missing ⟨some 1, some 0, some 0, none⟩).alpha ≠ none := by
  constructor <;> simp [SpaceColor.resolve_missing]

/-- C8, amended.  `resolve_missing` replaces every NaN component — alpha
included — with `0`, and leaves every non-NaN component unchanged. -/
theorem resolve_missing_zeroes_all_nan :
    ∀ x : SpaceColor,
      ((x.a = none → x.resolve_missing.a = some 0) ∧
        (x.a ≠ none → x.resolve_missing.a = x.a)) ∧
      ((x.b = none → x.resolve_missing.b = some 0) ∧
        (x.b ≠ none → x.resolve_missing.b = x.b)) ∧
      ((x.c = none → x.resolve_missing.c = some 0) ∧
        (x.c ≠ none → x.resolve_missing.c = x.c)) ∧
      ((x.alpha = none → x.resolve_missing.alpha = some 0) ∧
        (x.alpha ≠ none → x.resolve_missing.alpha = x.alpha)) := by
  rintro ⟨a, b, c, alpha⟩
  rcases a with _ | a <;> rcases b with _ | b <;> rcases c with _ | c <;>
    rcases alpha with _ | alpha <;> simp [SpaceColor.resolve_missing]

/-- Witness for C8 (amended) at a concrete color. -/
theorem resolve_missing_zeroes_witness :
    (SpaceColor.resolve_missing ⟨none, some 2, some 3, none⟩).a = some 0 :=
  (resolve_missing_zeroes_all_nan ⟨none, some 2, some 3, none⟩).1.1 rfl

/-- C2.  With browser targets set, the `fallbacks!` helper pushes every
fallback declaration produced by `get_fallbacks` onto the output list
before the primary declaration, and pushes the primary declaration last. -/
theorem fallbacks_precede_primary :
    ∀ {α : Type} (t : Targets) (mk : α → Property)
      (getFb : α → Targets → List α × α) (val : α) (e : Emit),
      emitFallbacks (some t) mk getFb val e =
        (e.1 ++ (getFb val t).1.map mk ++ [mk (getFb val t).2], e.2) := by
  intro α t mk getFb val e
  exact emitFallbacks_some t mk getFb val e

/-- C4.  `CssColor::get_fallbacks` returns exactly the RGB conversion (iff
the RGB kind is necessary) followed by the P3 conversion (iff the P3 kind
is necessary), and mutates the receiver to its Lab form iff the LAB kind is
necessary, leaving it unchanged otherwise. -/
theorem get_fallbacks_characterization :
    ∀ (cv : Conversions) (c : CssColor) (t : Targets),
      CssColor.get_fallbacks cv c t =
        ((if ColorFallbackKind.contains (c.get_necessary_fallbacks t)
              ColorFallbackKind.RGB then [cv.toRgb c] else []) ++
          (if ColorFallbackKind.contains (c.get_necessary_fallbacks t)
              ColorFallbackKind.P3 then [cv.toP3 c] else []),
          if ColorFallbackKind.contains (c.get_necessary_fallbacks t)
              ColorFallbackKind.LAB then cv.toLab c else c) := by
  intro cv c t
  unfold CssColor.get_fallbacks
  split_ifs <;> simp_all

/-- C9.  `parse_rgb_components` fails with `InvalidValue` whenever the three
components include both an actual (non-`none`) number and a percentage, in
any positions. -/
theorem rgb_mixed_components_error :
    ∀ t1 t2 t3 : NumberOrPercentage,
      (t1.isRealNumber || t2.isRealNumber || t3.isRealNumber) = true →
      (t1.isPercentage || t2.isPercentage || t3.isPercentage) = true →
      parse_rgb_components t1 t2 t3 = .error .InvalidValue := by
  intro t1 t2 t3 h1 h2
  rcases t1 with (_ | v1) | p1 <;> rcases t2 with (_ | v2) | p2 <;>
    rcases t3 with (_ | v3) | p3 <;>
    simp_all [NumberOrPercentage.isRealNumber, NumberOrPercentage.isPercentage] <;>
    rfl

/-- Witness for C9: a number mixed with a percentage is rejected. -/
theorem rgb_mixed_components_witness :
    parse_rgb_components (.Number (some 1)) (.Percentage (1/2)) (.Number none) =
      .error .InvalidValue :=
  rgb_mixed_components_error _ _ _ (by decide) (by decide)

/-- Removing kinds from a bitset never adds bits. -/
theorem remove_le (s k : Nat) : ColorFallbackKind.remove s k ≤ s :=
  Nat.and_le_left

/-- The removal phases of the fallback planner only clear bits. -/
theorem fallbackStep_le (s : Nat) (t : Targets) : fallbackStep s t ≤ s := by
  unfold fallbackStep
  dsimp only
  split_ifs <;>
    first
      | exact Nat.le_refl _
      | exact remove_le _ _
      | exact le_trans (remove_le _ _) (remove_le _ _)
      | exact le_trans (remove_le _ _) (le_trans (remove_le _ _) (remove_le _ _))

/-- Every possible-fallback set fits in the four kind bits. -/
theorem possible_fallbacks_lt_16 (c : CssColor) (t : Targets) :
    c.get_possible_fallbacks t < 16 := by
  have h7 : fallbackStep 7 t ≤ 7 := fallbackStep_le 7 t
  have h15 : fallbackStep 15 t ≤ 15 := fallbackStep_le 15 t
  have h3 : fallbackStep 3 t ≤ 3 := fallbackStep_le 3 t
  have e7 : ColorFallbackKind.and_below ColorFallbackKind.LAB = 7 := by decide
  have e15 : ColorFallbackKind.and_below ColorFallbackKind.OKLAB = 15 := by decide
  have e3 : ColorFallbackKind.and_below ColorFallbackKind.P3 = 3 := by decide
  cases c with
  | CurrentColor => simp [CssColor.get_possible_fallbacks, ColorFallbackKind.empty]
  | RGBA r => simp [CssColor.get_possible_fallbacks, ColorFallbackKind.empty]
  | Float f => simp [CssColor.get_possible_fallbacks, ColorFallbackKind.empty]
  | LAB l =>
    cases l <;> simp only [CssColor.get_possible_fallbacks, e7, e15] <;> omega
  | Predefined p =>
    cases p <;>
      simp only [CssColor.get_possible_fallbacks, e7, e3, ColorFallbackKind.empty] <;>
      (try split_ifs) <;> omega

/-- Bounded bitset fact behind C3, checked by enumeration: removing the
highest set bit leaves exactly the kinds that are strictly lower than it. -/
theorem necessary_bitset_fact :
    ∀ s : Fin 16, ∀ k : Fin 16,
      (k.val = 1 ∨ k.val = 2 ∨ k.val = 4 ∨ k.val = 8) →
      ((ColorFallbackKind.contains
          (ColorFallbackKind.remove s.val (ColorFallbackKind.highest s.val)) k.val = true ↔
          (ColorFallbackKind.contains s.val k.val = true ∧
            k.val ≠ ColorFallbackKind.highest s.val)) ∧
        (ColorFallbackKind.contains
          (ColorFallbackKind.remove s.val (ColorFallbackKind.highest s.val)) k.val = true →
          k.val < ColorFallbackKind.highest s.val)) := by
  decide

/-- C3.  For every color and targets, `get_necessary_fallbacks` equals
`get_possible_fallbacks` with its highest set bit removed, and every kind it
contains is strictly lower (in the numeric kind order RGB < P3 < LAB <
OKLAB) than the highest kind of the possible set. -/
theorem necessary_fallbacks_strictly_lower :
    ∀ (c : CssColor) (t : Targets) (k : Nat),
      (k = ColorFallbackKind.RGB ∨ k = ColorFallbackKind.P3 ∨
        k = ColorFallbackKind.LAB ∨ k = ColorFallbackKind.OKLAB) →
      (c.get_necessary_fallbacks t =
        ColorFallbackKind.remove (c.get_possible_fallbacks t)
          (ColorFallbackKind.highest (c.get_possible_fallbacks t))) ∧
      (ColorFallbackKind.contains (c.get_necessary_fallbacks t) k = true ↔
        (ColorFallbackKind.contains (c.get_possible_fallbacks t) k = true ∧
          k ≠ ColorFallbackKind.highest (c.get_possible_fallbacks t))) ∧
      (ColorFallbackKind.contains (c.get_necessary_fallbacks t) k = true →
        k < ColorFallbackKind.highest (c.get_possible_fallbacks t)) := by
  intro c t k hk
  have hs : c.get_possible_fallbacks t < 16 := possible_fallbacks_lt_16 c t
  have hk16 : k < 16 := by
    rcases hk with h | h | h | h <;> simp [h, ColorFallbackKind.RGB, ColorFallbackKind.P3,
      ColorFallbackKind.LAB, ColorFallbackKind.OKLAB]
  have hfact := necessary_bitset_fact ⟨c.get_possible_fallbacks t, hs⟩ ⟨k, hk16⟩
  have hdisj : k = 1 ∨ k = 2 ∨ k = 4 ∨ k = 8 := hk
  refine ⟨rfl, ?_, ?_⟩
  · exact (hfact hdisj).1
  · exact (hfact hdisj).2

/-- Witness for C3 at a `lab()` color with targets supporting none of the
modern syntaxes: the possible set is `{RGB, LAB}`, the necessary set `{RGB}`,
and RGB is strictly below LAB. -/
theorem necessary_fallbacks_witness :
    1 < ColorFallbackKind.highest
        ((CssColor.LAB (LABColor.LAB ⟨some 0, some 0, some 0, some 1⟩)).get_possible_fallbacks
          ⟨false, false, false, false, false, false⟩) :=
  (necessary_fallbacks_strictly_lower
    (CssColor.LAB (LABColor.LAB ⟨some 0, some 0, some 0, some 1⟩))
    ⟨false, false, false, false, false, false⟩ 1 (Or.inl rfl)).2.2 (by decide)

/-!
### Hue normalisation bounds
-/

theorem rustRem_nonneg (a : ℚ) (h : 0 ≤ a) :
    0 ≤ rustRem a 360 ∧ rustRem a 360 < 360 := by
  unfold rustRem ratTrunc
  have hdiv : 0 ≤ a / 360 := by positivity
  rw [if_pos hdiv]
  have h1 : (⌊a / 360⌋ : ℚ) ≤ a / 360 := Int.floor_le _
  have h2 : a / 360 < ⌊a / 360⌋ + 1 := Int.lt_floor_add_one _
  constructor <;> nlinarith

theorem rustRem_neg (a : ℚ) (h : a < 0) :
    -360 < rustRem a 360 ∧ rustRem a 360 ≤ 0 := by
  unfold rustRem ratTrunc
  have hdiv : ¬ (0 ≤ a / 360) := by
    simp only [not_le]
    exact div_neg_of_neg_of_pos h (by norm_num)
  rw [if_neg hdiv]
  have h1 : a / 360 ≤ (⌈a / 360⌉ : ℚ) := Int.le_ceil _
  have h2 : (⌈a / 360⌉ : ℚ) < a / 360 + 1 := Int.ceil_lt_add_one _
  constructor <;> nlinarith

theorem hueNormalize_bounds (h : ℚ) : 0 ≤ hueNormalize h ∧ hueNormalize h < 360 := by
  unfold hueNormalize
  rcases le_or_lt 0 h with hle | hlt
  · have h1 := rustRem_nonneg h hle
    exact rustRem_nonneg _ (by linarith [h1.1])
  · have h1 := rustRem_neg h hlt
    exact rustRem_nonneg _ (by linarith [h1.1])

/-- Reduction of the normalisation chain on a finite hue. -/
theorem norm_chain (h : ℚ) :
    frem (fadd (frem (some h) 360) (some 360)) 360 = some (hueNormalize h) := rfl

/-- C6, amended.  After reduction of both finite hues into `[0, 360)`,
`HueInterpolationMethod::interpolate` adjusts them so that: for `shorter`,
`|h2 - h1| <= 180`; for `longer`, `h2 - h1 = 0` or `|h2 - h1| ∈ [180, 360)`
(the shift of `h1` by +360 makes the difference negative when the input
delta lay in `(0, 180)`); for `increasing`, `h1 <= h2`; for `decreasing`,
`h2 <= h1`; and `specified` leaves both angles exactly as given. -/
theorem hue_interpolation_ranges :
    ∀ (h1 h2 : ℚ) (m : HueInterpolationMethod),
      ∃ a b : ℚ,
        m.interpolate (some h1) (some h2) = (some a, some b) ∧
        (m = .Shorter → |b - a| ≤ 180) ∧
        (m = .Longer → b - a = 0 ∨ (180 ≤ |b - a| ∧ |b - a| < 360)) ∧
        (m = .Increasing → a ≤ b) ∧
        (m = .Decreasing → b ≤ a) ∧
        (m = .Specified → a = h1 ∧ b = h2) ∧
        (m ≠ .Specified →
          (a = hueNormalize h1 ∨ a = hueNormalize h1 + 360) ∧
          (b = hueNormalize h2 ∨ b = hueNormalize h2 + 360) ∧
          0 ≤ hueNormalize h1 ∧ hueNormalize h1 < 360 ∧
          0 ≤ hueNormalize h2 ∧ hueNormalize h2 < 360) := by
  intro h1 h2 m
  obtain ⟨hn1a, hn1b⟩ := hueNormalize_bounds h1
  obtain ⟨hn2a, hn2b⟩ := hueNormalize_bounds h2
  cases m with
  | Shorter =>
    simp only [HueInterpolationMethod.interpolate, norm_chain, fsub, fgtc, fltc, ne_eq,
      reduceCtorEq, not_false_eq_true, if_true, decide_eq_true_eq]
    split_ifs with hA hB
    · refine ⟨hueNormalize h1 + 360, hueNormalize h2, rfl, fun _ => ?_, by simp, by simp,
        by simp, by simp, fun _ => ⟨Or.inr rfl, Or.inl rfl, hn1a, hn1b, hn2a, hn2b⟩⟩
      rw [abs_le]
      constructor <;> linarith
    · refine ⟨hueNormalize h1, hueNormalize h2 + 360, rfl, fun _ => ?_, by simp, by simp,
        by simp, by simp, fun _ => ⟨Or.inl rfl, Or.inr rfl, hn1a, hn1b, hn2a, hn2b⟩⟩
      rw [abs_le]
      constructor <;> linarith
    · refine ⟨hueNormalize h1, hueNormalize h2, rfl, fun _ => ?_, by simp, by simp,
        by simp, by simp, fun _ => ⟨Or.inl rfl, Or.inl rfl, hn1a, hn1b, hn2a, hn2b⟩⟩
      rw [abs_le]
      constructor <;> linarith
  | Longer =>
    simp only [HueInterpolationMethod.interpolate, norm_chain, fsub, fgtc, fltc, ne_eq,
      reduceCtorEq, not_false_eq_true, if_true, decide_eq_true_eq, Bool.and_eq_true]
    split_ifs with hA hB
    · obtain ⟨hA1, hA2⟩ := hA
      refine ⟨hueNormalize h1 + 360, hueNormalize h2, rfl, by simp, fun _ => ?_, by simp,
        by simp, by simp, fun _ => ⟨Or.inr rfl, Or.inl rfl, hn1a, hn1b, hn2a, hn2b⟩⟩
      right
      rw [abs_sub_comm, abs_of_nonneg (by linarith)]
      constructor <;> linarith
    · obtain ⟨hB1, hB2⟩ := hB
      refine ⟨hueNormalize h1, hueNormalize h2 + 360, rfl, by simp, fun _ => ?_, by simp,
        by simp, by simp, fun _ => ⟨Or.inl rfl, Or.inr rfl, hn1a, hn1b, hn2a, hn2b⟩⟩
      right
      rw [abs_of_nonneg (by linarith)]
      constructor <;> linarith
    · push_neg at hA hB
      refine ⟨hueNormalize h1, hueNormalize h2, rfl, by simp, fun _ => ?_, by simp,
        by simp, by simp, fun _ => ⟨Or.inl rfl, Or.inl rfl, hn1a, hn1b, hn2a, hn2b⟩⟩
      rcases lt_trichotomy (hueNormalize h2 - hueNormalize h1) 0 with hlt | heq | hgt
      · have h180 : hueNormalize h2 - hueNormalize h1 ≤ -180 := by
          by_contra hcon
          push_neg at hcon
          have := hB (by linarith)
          linarith
        right
        rw [abs_of_nonpos (by linarith)]
        constructor <;> linarith
      · left; linarith
      · have h180 : 180 ≤ hueNormalize h2 - hueNormalize h1 := by
          by_contra hcon
          push_neg at hcon
          have := hA hgt
          linarith
        right
        rw [abs_of_nonneg (by linarith)]
        constructor <;> linarith
  | Increasing =>
    simp only [HueInterpolationMethod.interpolate, norm_chain, ne_eq,
      reduceCtorEq, not_false_eq_true, if_true]
    simp only [fltf, decide_eq_true_eq]
    split_ifs with hA
    · exact ⟨hueNormalize h1, hueNormalize h2 + 360, rfl, by simp, by simp,
        fun _ => by linarith, by simp, by simp,
        fun _ => ⟨Or.inl rfl, Or.inr rfl, hn1a, hn1b, hn2a, hn2b⟩⟩
    · push_neg at hA
      exact ⟨hueNormalize h1, hueNormalize h2, rfl, by simp, by simp,
        fun _ => by linarith, by simp, by simp,
        fun _ => ⟨Or.inl rfl, Or.inl rfl, hn1a, hn1b, hn2a, hn2b⟩⟩
  | Decreasing =>
    simp only [HueInterpolationMethod.interpolate, norm_chain, ne_eq,
      reduceCtorEq, not_false_eq_true, if_true]
    simp only [fltf, decide_eq_true_eq]
    split_ifs with hA
    · exact ⟨hueNormalize h1 + 360, hueNormalize h2, rfl, by simp, by simp, by simp,
        fun _ => by linarith, by simp,
        fun _ => ⟨Or.inr rfl, Or.inl rfl, hn1a, hn1b, hn2a, hn2b⟩⟩
    · push_neg at hA
      exact ⟨hueNormalize h1, hueNormalize h2, rfl, by simp, by simp, by simp,
        fun _ => by linarith, by simp,
        fun _ => ⟨Or.inl rfl, Or.inl rfl, hn1a, hn1b, hn2a, hn2b⟩⟩
  | Specified =>
    exact ⟨h1, h2, rfl, by simp, by simp, by simp, by simp, fun _ => ⟨rfl, rfl⟩,
      fun h => absurd rfl h⟩

/-- C6 counterexample.  For `longer` with hues 0 and 90 the code shifts the
first hue by +360, so the adjusted difference is -270, which is not in
`{0} ∪ [180, 360)` as the claim states. -/
theorem hue_longer_counterexample :
    HueInterpolationMethod.interpolate .Longer (some 0) (some 90) = (some 360, some 90) ∧
      ¬(((90 : ℚ) - 360 = 0) ∨ (180 ≤ (90 : ℚ) - 360 ∧ (90 : ℚ) - 360 < 360)) := by
  constructor
  · have h0 : hueNormalize 0 = 0 := by
      norm_num [hueNormalize, rustRem, ratTrunc]
    have h90 : hueNormalize 90 = 90 := by
      norm_num [hueNormalize, rustRem, ratTrunc]
    simp only [HueInterpolationMethod.interpolate, norm_chain, h0, h90, ne_eq,
      reduceCtorEq, not_false_eq_true, if_true]
    norm_num [fsub, fgtc, fltc, fadd]
  · norm_num

/-- Witness for C6 (amended) at concrete hues under `shorter`. -/
theorem hue_interpolation_ranges_witness :
    ∃ a b : ℚ,
      HueInterpolationMethod.interpolate .Shorter (some 10) (some 350) = (some a, some b) ∧
        |b - a| ≤ 180 := by
  obtain ⟨a, b, heq, hsh, -, -, -, -, -⟩ := hue_interpolation_ranges 10 350 .Shorter
  exact ⟨a, b, heq, hsh rfl⟩

/-- C7, amended.  In `CssColor::interpolate` the powerless-component marking
is applied only to an input that was converted into the interpolation space;
an input already expressed in the space (`TypeId` equal) enters the pipeline
unmarked.  Stated for the `LCH` space: for `lch()` inputs the result is the
pipeline applied to the raw payloads, with no powerless adjustment. -/
theorem interpolate_lch_unconverted_unmarked :
    ∀ (x y : LCH) (p1 p2 : ℚ) (m : HueInterpolationMethod),
      CssColor.interpolate_lch (.LAB (.LCH x)) p1 (.LAB (.LCH y)) p2 m =
        some (.LAB (.LCH (lchPipelineCore x y p1 p2 m))) := by
  intro x y p1 p2 m
  simp [CssColor.interpolate_lch, CssColor.get_type_id, LCH.fromCssFragment]

/-- Normalisation of the hue 120. -/
theorem c7_hue120 : hueNormalize 120 = 120 := by
  norm_num [hueNormalize, rustRem, ratTrunc]

/-- Normalisation of the hue 30. -/
theorem c7_hue30 : hueNormalize 30 = 30 := by
  norm_num [hueNormalize, rustRem, ratTrunc]

/-- Shorter-hue adjustment of the pair (120, 30): the delta is -90, no shift. -/
theorem c7_adj :
    HueInterpolationMethod.interpolate .Shorter (some 120) (some 30) = (some 120, some 30) := by
  simp only [HueInterpolationMethod.interpolate, norm_chain, c7_hue120, c7_hue30, ne_eq,
    reduceCtorEq, not_false_eq_true, if_true]
  norm_num [fsub, fgtc, fltc]

/-- Shorter-hue adjustment of the pair (30, 30). -/
theorem c7_adj2 :
    HueInterpolationMethod.interpolate .Shorter (some 30) (some 30) = (some 30, some 30) := by
  simp only [HueInterpolationMethod.interpolate, norm_chain, c7_hue30, ne_eq,
    reduceCtorEq, not_false_eq_true, if_true]
  norm_num [fsub, fgtc, fltc]

/-- The interpolation pipeline on the unmarked payloads of the C7
counterexample: the first hue 120 participates, giving 75. -/
theorem c7_core :
    lchPipelineCore ⟨some (1/2), some 0, some 120, some 1⟩
        ⟨some (1/2), some (1/10), some 30, some 1⟩ (1/2) (1/2) .Shorter =
      ⟨some (1/2), some (1/20), some 75, some 1⟩ := by
  norm_num [lchPipelineCore, LCH.fill_missing_components, LCH.premultiply,
    LCH.unpremultiply, LCH.interpolate, c7_adj, fadd, fmul, fdiv, frem, rustRem, ratTrunc]

/-- The interpolation pipeline after powerless marking of the first color
(hue replaced by NaN): the filled hue is 30, giving 30. -/
theorem c7_coreMarked :
    lchPipelineCore ⟨some (1/2), some 0, none, some 1⟩
        ⟨some (1/2), some (1/10), some 30, some 1⟩ (1/2) (1/2) .Shorter =
      ⟨some (1/2), some (1/20), some 30, some 1⟩ := by
  norm_num [lchPipelineCore, LCH.fill_missing_components, LCH.premultiply,
    LCH.unpremultiply, LCH.interpolate, c7_adj2, fadd, fmul, fdiv, frem, rustRem, ratTrunc]

/-- C7 counterexample.  Mixing two `lch()` inputs (no conversion needed)
with the first input's chroma zero: the implementation does not mark the
first hue as powerless, so the result hue is the plain average 75; under
the claimed unconditional marking the first hue would be replaced by the
second and the result hue would be 30. -/
theorem interpolate_lch_powerless_counterexample :
    CssColor.interpolate_lch lchA (1/2) lchB (1/2) .Shorter =
      some (.LAB (.LCH ⟨some (1/2), some (1/20), some 75, some 1⟩)) ∧
    CssColor.interpolate_lch_specMarked lchA (1/2) lchB (1/2) .Shorter =
      some (.LAB (.LCH ⟨some (1/2), some (1/20), some 30, some 1⟩)) ∧
    ((75 : ℚ) ≠ 30) := by
  refine ⟨?_, ?_, by norm_num⟩
  · simp only [lchA, lchB, CssColor.interpolate_lch, CssColor.get_type_id,
      LCH.fromCssFragment]
    norm_num [c7_core]
  · have hf2 : ¬ (|(1 : ℚ)/2| < f32Epsilon) := by
      rw [abs_of_nonneg (by norm_num : (0 : ℚ) ≤ 1/2)]
      norm_num [f32Epsilon]
    have hf10 : ¬ (|(1 : ℚ)/10| < f32Epsilon) := by
      rw [abs_of_nonneg (by norm_num : (0 : ℚ) ≤ 1/10)]
      norm_num [f32Epsilon]
    have hf0 : |(0 : ℚ)| < f32Epsilon := by norm_num [f32Epsilon]
    have hfe : (0 : ℚ) < f32Epsilon := by norm_num [f32Epsilon]
    simp only [lchA, lchB, CssColor.interpolate_lch_specMarked, CssColor.get_type_id,
      LCH.fromCssFragment, LCH.adjust_powerless_components, fabsLt, decide_eq_true_eq]
    norm_num [hf2, hf10, hf0, hfe, c7_coreMarked]

/-!
### Handler lemmas
-/

/-- A flush with nothing recorded emits nothing and leaves the state alone. -/
theorem flush_no_any (cv : Conversions) (st : BorderHandler) (ctx : SupportsCtx)
    (h : st.has_any = false) : BorderHandler.flush cv st ctx = (st, ([], [])) := by
  simp [BorderHandler.flush, h]

/-- After a flush, nothing is recorded. -/
theorem flush_fst_has_any_false (cv : Conversions) (st : BorderHandler) (ctx : SupportsCtx) :
    (BorderHandler.flush cv st ctx).1.has_any = false := by
  unfold BorderHandler.flush
  split <;> simp_all

/-- A flush does not change the recorded category. -/
theorem flush_category_eq (cv : Conversions) (st : BorderHandler) (ctx : SupportsCtx) :
    (BorderHandler.flush cv st ctx).1.category = st.category := by
  unfold BorderHandler.flush
  split <;> rfl

/-- A `property!`/`set_border!` step records the incoming category. -/
theorem propertyStep_fst_category (cv : Conversions) (cat : PropertyCategory)
    (upd : BorderHandler → BorderHandler) (st : BorderHandler) (ctx : SupportsCtx) :
    (propertyStep cv cat upd st ctx).1.category = cat := by
  unfold propertyStep
  split <;> rfl

/-- A `property!` step with the recorded category flushes nothing. -/
theorem propertyStep_same_category (cv : Conversions) (cat : PropertyCategory)
    (upd : BorderHandler → BorderHandler) (st : BorderHandler) (ctx : SupportsCtx)
    (h : cat = st.category) :
    propertyStep cv cat upd st ctx = ({ upd st with category := cat, has_any := true }, ([], [])) := by
  unfold propertyStep
  rw [if_neg (by simp [h])]

/-- On a category change, a `property!` step is the flush followed by the
same step on the flushed state. -/
theorem propertyStep_flush_first (cv : Conversions) (cat : PropertyCategory)
    (upd : BorderHandler → BorderHandler) (st : BorderHandler) (ctx : SupportsCtx)
    (h : cat ≠ st.category) :
    propertyStep cv cat upd st ctx =
      ((propertyStep cv cat upd (BorderHandler.flush cv st ctx).1 ctx).1,
        Emit.append (BorderHandler.flush cv st ctx).2
          (propertyStep cv cat upd (BorderHandler.flush cv st ctx).1 ctx).2) := by
  have hcat : cat ≠ (BorderHandler.flush cv st ctx).1.category := by
    rw [flush_category_eq]
    exact h
  conv_rhs => rw [propertyStep, if_pos hcat,
    flush_no_any cv _ ctx (flush_fst_has_any_false cv st ctx)]
  conv_lhs => rw [propertyStep, if_pos h]
  rcases hfl : BorderHandler.flush cv st ctx with ⟨st', e⟩
  simp [Emit.append]

/-- On a category change, two chained `property!` steps are the flush
followed by the same steps on the flushed state. -/
theorem propertyStep2_flush_first (cv : Conversions) (cat : PropertyCategory)
    (upd1 upd2 : BorderHandler → BorderHandler) (st : BorderHandler) (ctx : SupportsCtx)
    (h : cat ≠ st.category) :
    propertyStep2 cv cat upd1 upd2 st ctx =
      ((propertyStep2 cv cat upd1 upd2 (BorderHandler.flush cv st ctx).1 ctx).1,
        Emit.append (BorderHandler.flush cv st ctx).2
          (propertyStep2 cv cat upd1 upd2 (BorderHandler.flush cv st ctx).1 ctx).2) := by
  unfold propertyStep2
  rw [propertyStep_flush_first cv cat upd1 st ctx h]
  rcases h1 : propertyStep cv cat upd1 (BorderHandler.flush cv st ctx).1 ctx with ⟨st1, e1⟩
  have hsame : cat = st1.category := by
    have := propertyStep_fst_category cv cat upd1 (BorderHandler.flush cv st ctx).1 ctx
    rw [h1] at this
    exact this.symm
  dsimp only
  rw [propertyStep_same_category cv cat upd2 st1 ctx hsame]
  simp [Emit.append]

/-- C5, amended.  A per-side or per-axis border declaration whose category
differs from the recorded one makes the handler flush first and then record
on the flushed state; the four-side shorthands `border-width`,
`border-style`, `border-color` and `border` never flush on arrival (they
emit nothing and bypass the category check, clearing the opposing logical
fields instead). -/
theorem category_change_flushes :
    ∀ (cv : Conversions) (st : BorderHandler) (ctx : SupportsCtx),
      (∀ (p : Property) (c : PropertyCategory),
        p.categoryOf = some c → c ≠ st.category →
        BorderHandler.handle_property cv st p ctx =
          ((BorderHandler.handle_property cv (BorderHandler.flush cv st ctx).1 p ctx).1,
            Emit.append (BorderHandler.flush cv st ctx).2
              (BorderHandler.handle_property cv (BorderHandler.flush cv st ctx).1 p ctx).2)) ∧
      (∀ v, (BorderHandler.handle_property cv st (.BorderWidth v) ctx).2 = ([], []) ∧
        (BorderHandler.handle_property cv st (.BorderWidth v) ctx).1.category = st.category ∧
        (BorderHandler.handle_property cv st (.BorderWidth v) ctx).1.border_block_start.width =
          none ∧
        (BorderHandler.handle_property cv st (.BorderWidth v) ctx).1.border_inline_end.width =
          none) ∧
      (∀ v, (BorderHandler.handle_property cv st (.BorderStyle v) ctx).2 = ([], []) ∧
        (BorderHandler.handle_property cv st (.BorderStyle v) ctx).1.category = st.category ∧
        (BorderHandler.handle_property cv st (.BorderStyle v) ctx).1.border_block_start.style =
          none) ∧
      (∀ v, (BorderHandler.handle_property cv st (.BorderColor v) ctx).2 = ([], []) ∧
        (BorderHandler.handle_property cv st (.BorderColor v) ctx).1.category = st.category ∧
        (BorderHandler.handle_property cv st (.BorderColor v) ctx).1.border_block_start.color =
          none) ∧
      (∀ v, (BorderHandler.handle_property cv st (.Border v) ctx).2 = ([], []) ∧
        (BorderHandler.handle_property cv st (.Border v) ctx).1.category = st.category ∧
        (BorderHandler.handle_property cv st (.Border v) ctx).1.border_block_start =
          st.border_block_start.reset) := by
  intro cv st ctx
  refine ⟨?_, fun v => ⟨rfl, rfl, rfl, rfl⟩, fun v => ⟨rfl, rfl, rfl⟩,
    fun v => ⟨rfl, rfl, rfl⟩, fun v => ⟨rfl, rfl, rfl⟩⟩
  intro p c hc hne
  cases p <;> simp only [Property.categoryOf, Option.some.injEq, reduceCtorEq] at hc
  all_goals subst hc
  all_goals simp only [BorderHandler.handle_property]
  all_goals first
    | exact propertyStep_flush_first _ _ _ _ _ hne
    | exact propertyStep2_flush_first _ _ _ _ _ _ hne

/-- Witness for C5 (amended): a logical color declaration arriving at a
fresh handler (recorded category still uninitialised) goes through the
flush-then-record path. -/
theorem category_change_flushes_witness :
    BorderHandler.handle_property idConversions (BorderHandler.new none)
        (Property.BorderBlockStartColor red) ⟨true, true⟩ =
      ((BorderHandler.handle_property idConversions
          (BorderHandler.flush idConversions (BorderHandler.new none) ⟨true, true⟩).1
          (Property.BorderBlockStartColor red) ⟨true, true⟩).1,
        Emit.append
          (BorderHandler.flush idConversions (BorderHandler.new none) ⟨true, true⟩).2
          (BorderHandler.handle_property idConversions
            (BorderHandler.flush idConversions (BorderHandler.new none) ⟨true, true⟩).1
            (Property.BorderBlockStartColor red) ⟨true, true⟩).2) :=
  (category_change_flushes idConversions (BorderHandler.new none) ⟨true, true⟩).1
    (Property.BorderBlockStartColor red) PropertyCategory.Logical rfl (by decide)

/-- C5 counterexample.  The `border-width` arm neither emits nor resets the
pending logical state: after the second declaration nothing has been
pushed, the pending logical color is still recorded, and the category is
still `Logical` — no flush happened before recording. -/
theorem four_side_shorthand_no_flush_counterexample :
    c5run1.1.category = PropertyCategory.Logical ∧
      c5run1.1.border_block_start.color = some red ∧
      c5run2.2 = ([], []) ∧
      c5run2.1.border_block_start.color = some red ∧
      c5run2.1.category = PropertyCategory.Logical ∧
      c5run2.1.border_top.width = some (.Length ⟨1⟩) := by
  refine ⟨?_, ?_, ?_, ?_, ?_, ?_⟩ <;> decide

/-- An RGBA color needs no fallbacks: `get_fallbacks` returns nothing and
leaves the color unchanged. -/
theorem rgba_get_fallbacks (cv : Conversions) (r : RGBA) (t : Targets) :
    CssColor.get_fallbacks cv (.RGBA r) t = ([], .RGBA r) := by
  have hn : (CssColor.RGBA r).get_necessary_fallbacks t = 0 := by
    simp [CssColor.get_necessary_fallbacks, CssColor.get_possible_fallbacks,
      ColorFallbackKind.empty, ColorFallbackKind.remove, ColorFallbackKind.highest,
      Nat.zero_and]
  simp [CssColor.get_fallbacks, hn, ColorFallbackKind.contains, ColorFallbackKind.RGB,
    ColorFallbackKind.P3, ColorFallbackKind.LAB, Nat.zero_and]

/-- A border whose color is RGBA needs no fallbacks. -/
theorem border_rgba_get_fallbacks (cv : Conversions) (w : BorderSideWidth) (s : LineStyle)
    (r : RGBA) (t : Targets) :
    Border.get_fallbacks cv ⟨w, s, .RGBA r⟩ t = ([], ⟨w, s, .RGBA r⟩) := by
  simp [Border.get_fallbacks, rgba_get_fallbacks]

/-- Emitting a `border` declaration with an RGBA color pushes exactly the
primary declaration, with or without targets. -/
theorem eBorder_rgba (env : FlushEnv) (w : BorderSideWidth) (s : LineStyle) (r : RGBA)
    (e : Emit) :
    eBorder env ⟨w, s, .RGBA r⟩ e = e.push (.Border ⟨w, s, .RGBA r⟩) := by
  unfold eBorder
  rcases env with ⟨cv, tg, ls, lss⟩
  rcases tg with _ | t
  · rfl
  · rw [emitFallbacks_some]
    simp [border_rgba_get_fallbacks, Emit.push]

/-- The logical quartet of a flush with all four logical sides empty emits
nothing. -/
theorem quartet_logical_empty (env : FlushEnv) (e : Emit) :
    flushQuartet env true (logBlockStart env) (logBlockEnd env) (logInlineStart env)
      (logInlineEnd env) default default default default e = e := by
  rcases env with ⟨cv, tg, ls, lss⟩
  cases ls <;> cases lss <;> rfl

/-- The physical quartet of a flush with all four sides valid, pairwise
equal and colored by an RGBA value emits exactly one `border` declaration. -/
theorem quartet_physical_all_equal (env : FlushEnv) (w : BorderSideWidth) (s : LineStyle)
    (r : RGBA) (e : Emit) :
    flushQuartet env false (physTop env) (physBottom env) (physLeft env) (physRight env)
      ⟨some w, some s, some (.RGBA r)⟩ ⟨some w, some s, some (.RGBA r)⟩
      ⟨some w, some s, some (.RGBA r)⟩ ⟨some w, some s, some (.RGBA r)⟩ e =
      e.push (.Border ⟨w, s, .RGBA r⟩) := by
  have hbeq : BorderShorthand.beq ⟨some w, some s, some (.RGBA r)⟩
      ⟨some w, some s, some (.RGBA r)⟩ = true := by
    simp [BorderShorthand.beq, beqWidth, beqStyle, beqColor, beqOpt, CssColor.beq]
  simp only [flushQuartet, BorderShorthand.is_valid, Option.isSome_some, Bool.and_self,
    hbeq, if_true, Bool.and_true, Bool.true_and]
  rw [show BorderShorthand.to_border ⟨some w, some s, some (.RGBA r)⟩ = ⟨w, s, .RGBA r⟩
    from rfl]
  exact eBorder_rgba env w s r e

/-- C1, amended.  When the four physical side states are fully valid,
pairwise equal and carry an RGBA (fallback-free) color, and the four
logical side states are empty, the flush emits exactly one `border`
declaration with that width/style/color and registers no logical rules —
for any targets and feature support; and feeding the S1 stream into a
fresh handler followed by finalize yields the single declaration
`border: 1px solid red`. -/
theorem border_merge_amended :
    (∀ (cv : Conversions) (tg : Option Targets) (ctx : SupportsCtx)
        (cat : PropertyCategory) (img rad : List Property) (w : BorderSideWidth)
        (s : LineStyle) (r : RGBA),
      (BorderHandler.flush cv
        { targets := tg
          border_top := ⟨some w, some s, some (.RGBA r)⟩
          border_bottom := ⟨some w, some s, some (.RGBA r)⟩
          border_left := ⟨some w, some s, some (.RGBA r)⟩
          border_right := ⟨some w, some s, some (.RGBA r)⟩
          border_block_start := default
          border_block_end := default
          border_inline_start := default
          border_inline_end := default
          category := cat
          border_image_handler := img
          border_radius_handler := rad
          has_any := true } ctx).2 = ([Property.Border ⟨w, s, .RGBA r⟩], [])) ∧
    Emit.append
        (BorderHandler.handle_list idConversions (BorderHandler.new none) s1decls
          ⟨true, true⟩).2
        (BorderHandler.finalize idConversions
          (BorderHandler.handle_list idConversions (BorderHandler.new none) s1decls
            ⟨true, true⟩).1 ⟨true, true⟩).2 =
      ([Property.Border b1px], []) := by
  constructor
  · intro cv tg ctx cat img rad w s r
    simp only [BorderHandler.flush, Bool.not_true, Bool.false_eq_true, if_false]
    rw [quartet_physical_all_equal, quartet_logical_empty]
    rfl
  · decide

/-- C1 counterexample.  Flushing a state whose four physical sides are
fully valid and pairwise equal (`1px solid red`) but which also holds a
pending logical width emits TWO declarations — the `border` shorthand and a
per-side `border-block-start-width` — not exactly one. -/
theorem border_flush_logical_pending_counterexample :
    (BorderHandler.flush idConversions c1state ⟨true, true⟩).2 =
      ([Property.Border ⟨.Length ⟨1⟩, .Solid, red⟩,
        Property.BorderBlockStartWidth (.Length ⟨2⟩)], []) ∧
      (BorderHandler.flush idConversions c1state ⟨true, true⟩).2.1.length = 2 := by
  constructor <;> decide

end ParcelCss
